import Mathlib

/-!
Verification of the TrueHour backend core against its specification.

This file gives a shallow embedding of the three core components of the
repository — the gear-type/performance classifier (`app/utils/gear_inference.py`),
the CSV flight import with hash-based duplicate detection
(`app/routers/flights.py`), the aircraft extractor (`app/routers/user_data.py`),
and the hours aggregation endpoint (`app/routers/import_history.py`) — and
proves or refutes the frozen claims about them.

Conventions of the embedding:
* Python `Decimal` values (exact decimal arithmetic) are modelled as `ℚ`.
* Nullable database columns / missing CSV keys are `Option` values; Python
  truthiness of a string (`None` and `""` are falsy) is the `truthy` helper.
* Dates are modelled as integers (day numbers); the SQL `ORDER BY date` is
  reflected by supplying the flight list in date-ascending order.
* Database and network collaborators (the aircraft table, the FAA registry)
  are passed in as explicit function/list parameters.
* String manipulation is implemented over `List Char` so that every
  definition reduces inside the kernel.
-/

namespace TrueHour

/-! ### String helpers (kernel-computable counterparts of Python str methods) -/

/-- Uppercase a string (Python `str.upper`). -/
def upperStr (s : String) : String := String.mk (s.data.map Char.toUpper)

/-- Lowercase a string (Python `str.lower`). -/
def lowerStr (s : String) : String := String.mk (s.data.map Char.toLower)

/-- Strip leading and trailing whitespace from a character list. -/
def trimChars (l : List Char) : List Char :=
  ((l.dropWhile Char.isWhitespace).reverse.dropWhile Char.isWhitespace).reverse

/-- Strip leading and trailing whitespace (Python `str.strip`). -/
def trimStr (s : String) : String := String.mk (trimChars s.data)

/-- Does `s` start with `p` (Python `str.startswith`)? -/
def startsWithStr (s p : String) : Bool := p.data.isPrefixOf s.data

/-- Is `needle` a contiguous substring of `hay` (Python `in` on strings)? -/
def containsChars : List Char → List Char → Bool
  | [], n => n.isEmpty
  | c :: t, n => n.isPrefixOf (c :: t) || containsChars t n

/-- String version of `containsChars`. -/
def containsSub (hay needle : String) : Bool := containsChars hay.data needle.data

/-- Does `hay` contain any of the given substrings? -/
def anyContains (hay : String) (needles : List String) : Bool :=
  needles.any (fun n => containsSub hay n)

/-- Python truthiness of an optional string: `None` and `""` are falsy. -/
def truthy (o : Option String) : Bool := !((o.getD "") == "")

/-- Split a character list on runs of whitespace, dropping empty tokens
(Python `str.split()` with no argument). `cur` is the current token,
accumulated in reverse. -/
def splitWsAux : List Char → List Char → List (List Char)
  | [], cur => if cur.isEmpty then [] else [cur.reverse]
  | c :: t, cur =>
    if Char.isWhitespace c then
      if cur.isEmpty then splitWsAux t [] else cur.reverse :: splitWsAux t []
    else splitWsAux t (c :: cur)

/-- Whitespace-split of a string into nonempty tokens. -/
def splitWs (s : String) : List (List Char) := splitWsAux s.data []

/-- Split a character list at every occurrence of `c`, keeping empty parts
(Python `str.split(c)`). -/
def splitOnChar (c : Char) : List Char → List (List Char)
  | [] => [[]]
  | x :: xs =>
    let r := splitOnChar c xs
    if x == c then [] :: r else (x :: r.headD []) :: r.tail

/-- Numeric value of a digit list (most significant digit first). -/
def digitsVal (l : List Char) : Nat := l.foldl (fun a c => 10 * a + (c.toNat - 48)) 0

/-! ### Classifier — `app/utils/gear_inference.py` -/

/-- Embeds `infer_gear_type(make, model)`: ordered manufacturer-family rules,
first matching family wins; returns `some "Fixed"`, `some "Retractable"`, or
`none` for "cannot determine" (Python `None`). The `re.match(r"^…")` calls are
anchored prefixes, hence `startsWithStr`. -/
def infer_gear_type (make model : Option String) : Option String :=
  if !truthy make || !truthy model then none
  else
    let mu := trimStr (upperStr (make.getD ""))
    let mo := trimStr (upperStr (model.getD ""))
    if containsSub mu "CESSNA" || containsSub mo "CESSNA" then
      if startsWithStr mo "R" || startsWithStr mo "210" || startsWithStr mo "T210" ||
          startsWithStr mo "P210" || startsWithStr mo "310" || startsWithStr mo "320" ||
          startsWithStr mo "335" || startsWithStr mo "336" || startsWithStr mo "337" ||
          startsWithStr mo "340" || startsWithStr mo "401" || startsWithStr mo "402" ||
          startsWithStr mo "404" || startsWithStr mo "411" || startsWithStr mo "414" ||
          startsWithStr mo "421" || containsSub mo "CITATION" then
        some "Retractable"
      else some "Fixed"
    else if containsSub mu "PIPER" || containsSub mo "PIPER" then
      if containsSub mo "PA-23" || containsSub mo "PA-24" ||
          containsSub mo "PA-28R" || containsSub mo "PA28R" ||
          containsSub mo "PA-30" || containsSub mo "PA-32R" || containsSub mo "PA32R" ||
          containsSub mo "PA-34" || containsSub mo "PA-39" || containsSub mo "PA-44" ||
          containsSub mo "PA-46" || containsSub mo "PA-60" ||
          anyContains mo ["ARROW", "LANCE", "COMANCHE", "AZTEC", "SENECA", "SEMINOLE",
            "MALIBU", "MERIDIAN", "AEROSTAR", "NAVAJO", "CHEYENNE"] then
        some "Retractable"
      else some "Fixed"
    else if anyContains mu ["BEECH", "RAYTHEON", "HAWKER"] then
      if containsSub mo "SKIPPER" ||
          (containsSub mo "MUSKETEER" && !containsSub mo "RETRACT") ||
          (containsSub mo "SPORT" && !containsSub mo "RETRACT") then
        some "Fixed"
      else some "Retractable"
    else if containsSub mu "MOONEY" then some "Retractable"
    else if containsSub mu "CIRRUS" then some "Fixed"
    else if containsSub mu "DIAMOND" then some "Fixed"
    else if anyContains mu ["GRUMMAN", "AMERICAN GENERAL", "GULFSTREAM AMERICAN"] then
      if containsSub mo "AA-1" || containsSub mo "AA-5" then some "Fixed"
      else if containsSub mo "AG-5B" then some "Fixed"
      else some "Fixed"
    else if anyContains mu ["ROCKWELL", "COMMANDER"] then
      if containsSub mo "112" || containsSub mo "114" then some "Retractable"
      else some "Fixed"
    else if containsSub mu "BELLANCA" then
      if containsSub mo "VIKING" then some "Retractable" else some "Fixed"
    else if containsSub mu "SOCATA" || containsSub mo "TOBAGO" || containsSub mo "TRINIDAD" then
      if containsSub mo "TRINIDAD" || containsSub mo "TB-20" || containsSub mo "TB-21" then
        some "Retractable"
      else some "Fixed"
    else if containsSub mu "MAULE" then some "Fixed"
    else if anyContains mo ["TTX", "COLUMBIA", "CORVALIS"] then some "Fixed"
    else none

/-- Embeds `should_be_complex(make, model, gear_type)`. -/
def should_be_complex (make model : Option String) (gear_type : Option String) : Bool :=
  if !truthy make || !truthy model then false
  else
    let g := if !truthy gear_type then infer_gear_type make model else gear_type
    if g != some "Retractable" then false
    else
      let mu := trimStr (upperStr (make.getD ""))
      let mo := trimStr (upperStr (model.getD ""))
      (containsSub mu "CESSNA" &&
        (startsWithStr mo "R" || containsSub mo "210" || containsSub mo "310")) ||
      (containsSub mu "PIPER" && g == some "Retractable") ||
      (anyContains mu ["BEECH", "RAYTHEON"] && g == some "Retractable") ||
      containsSub mu "MOONEY" ||
      (anyContains mu ["ROCKWELL", "COMMANDER"] && (containsSub mo "112" || containsSub mo "114"))

/-- Fixed token list of models known to exceed 200 rated horsepower
(`hp_patterns` in `should_be_high_performance`). -/
def hp_model_tokens : List String :=
  ["R182", "182RG", "T182", "TR182", "206", "207", "208", "210",
   "PA-24", "COMANCHE", "PA-28R-200", "PA-28R-201", "ARROW IV",
   "PA-32", "SARATOGA", "LANCE", "SIX", "PA-46", "MALIBU", "MERIDIAN",
   "BONANZA", "BARON", "DUKE",
   "M20J", "M20K", "M20M", "M20R", "M20S", "M20T", "M20U",
   "SR22", "DA42", "DA62"]

/-- Embeds `should_be_high_performance(make, model)`: pure substring matching
of the uppercased, stripped model against `hp_model_tokens`. Returns `false`
when make or model is `None`/empty (the `if not make or not model` guard). -/
def should_be_high_performance (make model : Option String) : Bool :=
  if !truthy make || !truthy model then false
  else
    let mo := trimStr (upperStr (model.getD ""))
    hp_model_tokens.any (fun p => containsSub mo p)

/-! ### CSV value coercion helpers — `app/routers/flights.py` -/

/-- Parse a plain decimal literal (optional sign, digits, at most one dot) to
an exact rational. Models Python `float(...)` on the decimal-literal strings
produced by the logbook export; non-literal input yields `none` (ValueError). -/
def decLit? (s : String) : Option ℚ :=
  let p : Bool × List Char :=
    match s.data with
    | '-' :: r => (true, r)
    | '+' :: r => (false, r)
    | r => (false, r)
  let sgn : ℚ := if p.1 then -1 else 1
  match splitOnChar '.' p.2 with
  | [ip] =>
    if !ip.isEmpty && ip.all Char.isDigit then some (sgn * (digitsVal ip : ℚ)) else none
  | [ip, fp] =>
    if (!ip.isEmpty || !fp.isEmpty) && ip.all Char.isDigit && fp.all Char.isDigit then
      some (sgn * ((digitsVal ip : ℚ) + (digitsVal fp : ℚ) / (10 : ℚ) ^ fp.length))
    else none
  | _ => none

/-- Embeds `_safe_float(value)`: `None` on `None`/empty/invalid input, the
parsed value otherwise. Note: the parsed value is NOT clamped to be
nonnegative — a negative literal parses to a negative number. -/
def safe_float (v : Option String) : Option ℚ :=
  match v with
  | none => none
  | some s => if s == "" then none else decLit? s

/-- Leap-year rule, for date validation. -/
def isLeap (y : Nat) : Bool := (y % 4 == 0 && y % 100 != 0) || y % 400 == 0

/-- Number of days in a month, for date validation. -/
def daysInMonth (y m : Nat) : Nat :=
  if m == 2 then (if isLeap y then 29 else 28)
  else if m == 4 || m == 6 || m == 9 || m == 11 then 30
  else 31

/-- Parse a zero-padded ISO `YYYY-MM-DD` character list to a calendar-valid
(year, month, day) triple. -/
def parseISO (l : List Char) : Option (Nat × Nat × Nat) :=
  match l with
  | [y1, y2, y3, y4, c1, m1, m2, c2, d1, d2] =>
    if c1 == '-' && c2 == '-' && [y1, y2, y3, y4, m1, m2, d1, d2].all Char.isDigit then
      let y := digitsVal [y1, y2, y3, y4]
      let m := digitsVal [m1, m2]
      let d := digitsVal [d1, d2]
      if 1 ≤ m && m ≤ 12 && 1 ≤ d && d ≤ daysInMonth y m then some (y, m, d) else none
    else none
  | _ => none

/-- Embeds `_safe_date(value)`: `None` on `None`/empty input, otherwise
`datetime.strptime(value.strip(), "%Y-%m-%d")`, returning `None` instead of
raising on invalid input. Modelled for zero-padded ISO dates. -/
def safe_date (v : Option String) : Option (Nat × Nat × Nat) :=
  match v with
  | none => none
  | some s => if s == "" then none else parseISO (trimChars s.data)

/-! ### Flight import with hash-based duplicate detection — `import_flights` -/

/-- One data row of the Flights Table, as raw CSV strings keyed by the
ForeFlight column names used by `import_flights`. A missing column is `none`;
an empty cell is `some ""`. -/
structure CsvRow where
  Date : Option String := none
  AircraftID : Option String := none
  From : Option String := none
  To : Option String := none
  Route : Option String := none
  TotalTime : Option String := none
  SimulatedFlight : Option String := none
  Make : Option String := none
  Model : Option String := none
  Year : Option String := none
  PilotComments : Option String := none
deriving DecidableEq

/-- Rendering of an optional raw field inside the f-string building the hash
used for deduplication: a missing field (`row.get(...) is None`) renders as
the literal string `"None"`, any present string renders as itself. -/
def fmtField (o : Option String) : String :=
  match o with
  | none => "None"
  | some s => s

/-- Embeds the duplicate-detection hash
`f"{row.get('Date')}_{row.get('From')}_{row.get('To')}_{row.get('TotalTime')}"`:
a function of exactly the four raw field strings. -/
def makeHash (r : CsvRow) : String :=
  fmtField r.Date ++ "_" ++ fmtField r.From ++ "_" ++ fmtField r.To ++ "_" ++ fmtField r.TotalTime

/-- Outcome of processing one CSV row inside the import loop. -/
inductive RowOutcome
  | missingDate
  | missingTime
  | duplicate
  | badDate
  | inserted
deriving DecidableEq

/-- State threaded through the import loop of `import_flights`: the set of
hashes already persisted in the database (`existing_hash_set`, immutable),
the in-batch hash set (`import_hashes`), the running counters and error
report, the rows actually persisted, and the CSV row number used in error
messages. -/
structure ImportState where
  existing : List String := []
  batch : List String := []
  imported : Nat := 0
  skipped : Nat := 0
  errors : List String := []
  persisted : List CsvRow := []
  rowNum : Nat := 0
deriving DecidableEq

/-- Embeds one iteration of the `import_flights` row loop: required-field
checks, hash construction, duplicate rejection against the persisted and
in-batch hash sets, in-batch hash registration (which happens before date
validation, as in the source), date validation, and insertion. Returns the
new state and the outcome tag for this row. -/
def stepTagged (s : ImportState) (r : CsvRow) : ImportState × RowOutcome :=
  let n := s.rowNum
  if !truthy r.Date then
    ({ s with rowNum := n + 1, skipped := s.skipped + 1,
              errors := s.errors ++ ["Row " ++ toString n ++ ": Missing required field (Date)"] },
     .missingDate)
  else if !truthy r.TotalTime && !truthy r.SimulatedFlight then
    ({ s with rowNum := n + 1, skipped := s.skipped + 1,
              errors := s.errors ++ ["Row " ++ toString n ++ ": Missing both TotalTime and SimulatedFlight"] },
     .missingTime)
  else
    let h := makeHash r
    if h ∈ s.existing ∨ h ∈ s.batch then
      ({ s with rowNum := n + 1, skipped := s.skipped + 1,
                errors := s.errors ++ ["Row " ++ toString n ++ ": Duplicate flight (already imported)"] },
       .duplicate)
    else
      match safe_date r.Date with
      | none =>
        ({ s with rowNum := n + 1, batch := s.batch ++ [h], skipped := s.skipped + 1,
                  errors := s.errors ++ ["Row " ++ toString n ++ ": Invalid date format"] },
         .badDate)
      | some _ =>
        ({ s with rowNum := n + 1, batch := s.batch ++ [h],
                  imported := s.imported + 1, persisted := s.persisted ++ [r] },
         .inserted)

/-- State part of `stepTagged`. -/
def stepRow (s : ImportState) (r : CsvRow) : ImportState := (stepTagged s r).1

/-- Process a list of CSV rows through the import loop. -/
def runRows (s : ImportState) (rows : List CsvRow) : ImportState := rows.foldl stepRow s

/-- A row passes the required-field presence checks: a truthy `Date` and a
truthy `TotalTime` or `SimulatedFlight`. -/
def presenceOk (r : CsvRow) : Bool :=
  truthy r.Date && (truthy r.TotalTime || truthy r.SimulatedFlight)

/-! ### Aircraft extraction — `app/routers/user_data.py` -/

/-- Embeds `_is_simulator(tail_number)`: truthy tail whose lowercase form
starts with one of the known simulator-device markers. -/
def is_simulator (t : String) : Bool :=
  if t == "" then false
  else
    let l := lowerStr t
    startsWithStr l "sim" || startsWithStr l "fsx" || startsWithStr l "x-plane" ||
    startsWithStr l "aatd" || startsWithStr l "batd" || startsWithStr l "pfcmfd" ||
    startsWithStr l "ftd"

/-- Embeds `_is_us_aircraft(tail_number)`: uppercase form starts with `N` and
the tail has length at least 2. -/
def is_us_aircraft (t : String) : Bool :=
  if t == "" then false
  else startsWithStr (upperStr t) "N" && decide (2 ≤ t.length)

/-- Python `x or None` applied to an optional string: blank becomes `None`. -/
def blankToNone (o : Option String) : Option String :=
  match o with
  | none => none
  | some s => if s == "" then none else some s

/-- Python `x or d` applied to an optional string with default `d`. -/
def orDefault (o : Option String) (d : String) : String :=
  match o with
  | none => d
  | some s => if s == "" then d else s

/-- Python `int(y) if y and str(y).isdigit() else None` on an optional
string. -/
def yearOfStr (o : Option String) : Option Int :=
  match o with
  | none => none
  | some y => (y.toNat?).map Int.ofNat

/-- One row of the Aircraft Table section, keyed by the ForeFlight column
names read by `_extract_and_import_aircraft`. -/
structure AcRow where
  Make : Option String := none
  Model : Option String := none
  Year : Option String := none
  TypeCode : Option String := none
  GearType : Option String := none
  EngineType : Option String := none
  aircraftClassFAA : Option String := none
deriving DecidableEq

/-- The classification payload assembled for one aircraft before it is
persisted (the `aircraft_data` / `ff_data` / `sim_data` dictionaries). -/
structure AircraftData where
  make : Option String := none
  model : Option String := none
  year : Option Int := none
  type_code : Option String := none
  gear_type : Option String := none
  engine_type : Option String := none
  aircraft_class : Option String := none
  is_complex : Bool := false
  is_taa : Bool := false
  is_high_performance : Bool := false
deriving DecidableEq

/-- A record returned by the external FAA registry collaborator
(`db.lookup(normalize_tail(tail))` in `_lookup_faa_aircraft`). -/
structure FaaRec where
  manufacturer : Option String := none
  model : Option String := none
  year_mfr : Option String := none
  series : Option String := none
  engine_type : Option String := none
  aircraft_type : Option String := none
deriving DecidableEq

/-- An aircraft row as inserted by `_create_user_aircraft`: note that the
`is_simulator` column is always recomputed from the tail number, the category
defaults to `"rental"`, and the provenance tag is the `data_source`
argument. -/
structure CreatedAircraft where
  tail_number : String
  make : Option String := none
  model : Option String := none
  year : Option Int := none
  type_code : Option String := none
  gear_type : Option String := none
  engine_type : Option String := none
  aircraft_class : Option String := none
  is_complex : Bool := false
  is_taa : Bool := false
  is_high_performance : Bool := false
  is_simulator : Bool := false
  category : String := "rental"
  data_source : String := "manual"
  is_active : Bool := true
deriving DecidableEq

/-- Embeds `_create_user_aircraft(conn, tail_number, aircraft_data,
data_source)` as the pure record it inserts. -/
def create_user_aircraft (tail : String) (d : AircraftData) (source : String) :
    CreatedAircraft :=
  { tail_number := tail
    make := d.make
    model := d.model
    year := d.year
    type_code := d.type_code
    gear_type := d.gear_type
    engine_type := d.engine_type
    aircraft_class := d.aircraft_class
    is_complex := d.is_complex
    is_taa := d.is_taa
    is_high_performance := d.is_high_performance
    is_simulator := is_simulator tail
    category := "rental"
    data_source := source
    is_active := true }

/-- Embeds `_extract_foreflight_aircraft_data(flights_data, tail_number)`:
scan the flight rows for the first row of this tail carrying a truthy make or
model, falling back to an all-`None` payload. -/
def extract_foreflight_aircraft_data (flights : List CsvRow) (tail : String) :
    AircraftData :=
  match flights.find? (fun fl =>
      fl.AircraftID == some tail && (truthy fl.Make || truthy fl.Model)) with
  | some fl =>
    { make := blankToNone fl.Make
      model := blankToNone fl.Model
      year := yearOfStr fl.Year }
  | none => {}

/-- Embeds `_lookup_faa_aircraft(tail_number, enable_faa_lookup)`. The
external registry (including tail normalization) is the oracle `faaDb`; on a
hit the local classifier is invoked on the registry make/model. Returns the
assembled payload together with the list of tails the gear/complexity
classifier was invoked for. -/
def lookup_faa_aircraft (enable : Bool) (faaDb : String → Option FaaRec)
    (tail : String) : Option AircraftData × List String :=
  if !enable then (none, [])
  else
    match faaDb tail with
    | none => (none, [])
    | some fr =>
      let g := infer_gear_type fr.manufacturer fr.model
      (some
        { make := fr.manufacturer
          model := fr.model
          year := yearOfStr fr.year_mfr
          type_code := fr.series
          engine_type := fr.engine_type
          aircraft_class := fr.aircraft_type
          gear_type := g
          is_complex := should_be_complex fr.manufacturer fr.model g
          is_high_performance := should_be_high_performance fr.manufacturer fr.model },
       [tail])

/-- Case-insensitive existence check against the stored aircraft
(`SELECT id FROM aircraft WHERE UPPER(tail_number) = UPPER($1)`). -/
def existsCI (existing : List String) (t : String) : Bool :=
  existing.any (fun e => upperStr e == upperStr t)

/-- Exact-key lookup in the Aircraft Table data
(`tail_number in aircraft_table_data`). -/
def lookupTable (acTable : List (String × AcRow)) (t : String) : Option AcRow :=
  (acTable.find? (fun p => p.1 == t)).map (fun p => p.2)

/-- Deduplicate preserving first occurrence, modelling iteration over the
Python `set` of unique tails (the claims proved below are insensitive to the
set iteration order). -/
def dedupFirst (l : List String) : List String :=
  l.foldl (fun acc t => if t ∈ acc then acc else acc ++ [t]) []

/-- Result of the aircraft extraction: the aircraft records created, and the
instrumentation trail of tails the gear/complexity classifier ran for. -/
structure ExtractResult where
  created : List CreatedAircraft := []
  calls : List String := []
deriving DecidableEq

/-- Phase 2 body of `_extract_and_import_aircraft` for one real (non-simulator)
tail: skip if stored, else assemble ForeFlight data from the Aircraft Table or
the flight rows, optionally consult the FAA registry, and create the aircraft
with provenance `"faa"` or `"foreflight"`. -/
def processTail (flights : List CsvRow) (enable : Bool)
    (acTable : List (String × AcRow)) (existing : List String)
    (faaDb : String → Option FaaRec) (res : ExtractResult) (t : String) :
    ExtractResult :=
  if existsCI existing t then res
  else
    let ffd : AircraftData :=
      match lookupTable acTable t with
      | some row =>
        { make := blankToNone row.Make
          model := blankToNone row.Model
          year := yearOfStr row.Year
          type_code := blankToNone row.TypeCode
          gear_type := blankToNone row.GearType
          engine_type := blankToNone row.EngineType
          aircraft_class := blankToNone row.aircraftClassFAA }
      | none => extract_foreflight_aircraft_data flights t
    let lk : Option AircraftData × List String :=
      if is_us_aircraft t && enable then lookup_faa_aircraft enable faaDb t
      else (none, [])
    let payload : AircraftData × String :=
      match lk.1 with
      | some d => (d, "faa")
      | none => (ffd, "foreflight")
    { created := res.created ++ [create_user_aircraft t payload.1 payload.2]
      calls := res.calls ++ lk.2 }

/-- Phase 3 body of `_extract_and_import_aircraft` for one simulator id: skip
if stored, else create with provenance `"manual"`, model defaulting to
`"Simulator"` and type code to `"SIM"`; the gear/complexity classifier is
never consulted. -/
def processSim (acTable : List (String × AcRow)) (existing : List String)
    (res : ExtractResult) (t : String) : ExtractResult :=
  if existsCI existing t then res
  else
    let d : AircraftData :=
      match lookupTable acTable t with
      | some row =>
        { make := blankToNone row.Make
          model := some (orDefault row.Model "Simulator")
          type_code := some (orDefault row.TypeCode "SIM") }
      | none => { model := some "Simulator", type_code := some "SIM" }
    { res with created := res.created ++ [create_user_aircraft t d "manual"] }

/-- Embeds `_extract_and_import_aircraft(conn, flights_data,
enable_faa_lookup, aircraft_table_data)`: partition the truthy tail numbers of
the flight rows into simulators and real aircraft, process the unique real
tails, then the unique simulator ids. The returned tail→id map is omitted;
the created records and the classifier-call trail are kept. -/
def extract_and_import_aircraft (flights : List CsvRow) (enable : Bool)
    (acTable : List (String × AcRow)) (existing : List String)
    (faaDb : String → Option FaaRec) : ExtractResult :=
  let tails := (flights.filterMap CsvRow.AircraftID).filter (fun t => !(t == ""))
  let sims := dedupFirst (tails.filter (fun t => is_simulator t))
  let reals := dedupFirst (tails.filter (fun t => !is_simulator t))
  let afterReals := reals.foldl (processTail flights enable acTable existing faaDb) {}
  sims.foldl (processSim acTable existing) afterReals

/-! ### Hours aggregation — `recalculate_hours_from_flights` in
`app/routers/import_history.py` -/

/-- A persisted flight row as read back by `SELECT * FROM flights ORDER BY
date`. Numeric duration columns are nullable `ℚ` (Python `Decimal`), counters
are nullable integers, `approaches` is the decoded JSON array. The `date`
column is a day number; the SQL ordering is reflected by list order. -/
structure Flight where
  date : Int
  tail_number : Option String := none
  aircraft_id : Option Int := none
  departure_airport : Option String := none
  arrival_airport : Option String := none
  route : Option String := none
  total_time : Option ℚ := none
  pic_time : Option ℚ := none
  sic_time : Option ℚ := none
  night_time : Option ℚ := none
  solo_time : Option ℚ := none
  cross_country_time : Option ℚ := none
  actual_instrument_time : Option ℚ := none
  simulated_instrument_time : Option ℚ := none
  simulated_flight_time : Option ℚ := none
  dual_given_time : Option ℚ := none
  dual_received_time : Option ℚ := none
  complex_time : Option ℚ := none
  high_performance_time : Option ℚ := none
  day_takeoffs : Option Int := none
  day_landings_full_stop : Option Int := none
  night_takeoffs : Option Int := none
  night_landings_full_stop : Option Int := none
  approaches : Option (List String) := none
  distance : Option ℚ := none
deriving DecidableEq

/-- Embeds `_parse_decimal(value)`: `Decimal("0")` on `None`, the value
otherwise (a numeric database column is never the empty string). Note: no
clamping to nonnegative values. -/
def parse_decimal (v : Option ℚ) : ℚ := v.getD 0

/-- Parsed duration/distance accessors, mirroring the `_parse_decimal` calls
of the aggregation loop. -/
def totalOf (f : Flight) : ℚ := parse_decimal f.total_time

/-- Parsed `pic_time`. -/
def picOf (f : Flight) : ℚ := parse_decimal f.pic_time

/-- Parsed `cross_country_time`. -/
def ccOf (f : Flight) : ℚ := parse_decimal f.cross_country_time

/-- Parsed `night_time`. -/
def nightOf (f : Flight) : ℚ := parse_decimal f.night_time

/-- Parsed `solo_time`. -/
def soloOf (f : Flight) : ℚ := parse_decimal f.solo_time

/-- Parsed `dual_received_time`. -/
def drOf (f : Flight) : ℚ := parse_decimal f.dual_received_time

/-- Parsed `dual_given_time`. -/
def dgOf (f : Flight) : ℚ := parse_decimal f.dual_given_time

/-- Parsed `simulated_flight_time`. -/
def sfOf (f : Flight) : ℚ := parse_decimal f.simulated_flight_time

/-- Parsed `actual_instrument_time`. -/
def aiOf (f : Flight) : ℚ := parse_decimal f.actual_instrument_time

/-- Parsed `simulated_instrument_time`. -/
def siOf (f : Flight) : ℚ := parse_decimal f.simulated_instrument_time

/-- Parsed `complex_time`. -/
def cxOf (f : Flight) : ℚ := parse_decimal f.complex_time

/-- Parsed `distance` (`_parse_decimal(flight.get("distance") or 0)`). -/
def distOf (f : Flight) : ℚ := parse_decimal f.distance

/-- Route string (`flight.get("route") or ""`). -/
def routeOf (f : Flight) : String := f.route.getD ""

/-- Departure airport (`flight.get("departure_airport") or ""`). -/
def depOf (f : Flight) : String := f.departure_airport.getD ""

/-- Arrival airport (`flight.get("arrival_airport") or ""`). -/
def arrOf (f : Flight) : String := f.arrival_airport.getD ""

/-- Day takeoffs counter (`int(_parse_decimal(flight.get("day_takeoffs") or 0))`). -/
def dtkOf (f : Flight) : Int := f.day_takeoffs.getD 0

/-- Day full-stop landings counter. -/
def dldOf (f : Flight) : Int := f.day_landings_full_stop.getD 0

/-- Night takeoffs counter. -/
def ntkOf (f : Flight) : Int := f.night_takeoffs.getD 0

/-- Night full-stop landings counter. -/
def nldOf (f : Flight) : Int := f.night_landings_full_stop.getD 0

/-- Number of logged approaches (length of the decoded JSON array, 0 when
absent or undecodable). -/
def approachCountOf (f : Flight) : Nat := (f.approaches.getD []).length

/-- Embeds `_count_route_segments(route)`: the number of whitespace tokens
starting with `"K"` of length 4 (duplicates counted). -/
def count_route_segments (route : String) : Nat :=
  ((splitWs route).filter (fun seg => ['K'].isPrefixOf seg && seg.length == 4)).length

/-- Embeds `_is_towered_airport(airport_code)`: membership in the fixed
simplified towered-airport set. -/
def is_towered_airport (code : String) : Bool :=
  ["KAMW", "KALO", "KATL", "KORD", "KDFW", "KDEN", "KLAX", "KJFK", "KSFO",
   "KLAS", "KMCO", "KSEA", "KPHX", "KIAH", "KEWR", "KBOS", "KMIA", "KDCA",
   "KLGA", "KMDW", "KBWI", "KDAL", "KSAN", "KSLC", "KPDX", "KOAK", "KSMF",
   "KSNA", "KAUS", "KRDU", "KCVG", "KPIT", "KCLE", "KSTL", "KBNA",
   "KMSY"].contains code

/-- Fallback aircraft label `str(flight.get("aircraft_id") or "")` used in
evidence records. -/
def aidFallback (f : Flight) : String :=
  match f.aircraft_id with
  | none => ""
  | some i => if i == 0 then "" else toString i

/-- Evidence aircraft label
`flight.get("tail_number") or str(flight.get("aircraft_id") or "")`. -/
def evidence_tail (f : Flight) : String :=
  match f.tail_number with
  | none => aidFallback f
  | some t => if t == "" then aidFallback f else t

/-- One `_qualifying_flights` evidence entry. The fields common to every
requirement are always set; `duration`, `approach_count` and `qual_type` are
present only for the requirements that record them. -/
structure QualifyingFlight where
  date : Int
  aircraft_id : String
  route : String
  distance : ℚ
  duration : Option ℚ := none
  approach_count : Option Nat := none
  qual_type : Option String := none
deriving DecidableEq

/-- Evidence entry for the private long cross-country requirement
(`"type": "Solo"`). -/
def mkPrivEv (f : Flight) : QualifyingFlight :=
  { date := f.date, aircraft_id := evidence_tail f, route := routeOf f,
    distance := distOf f, qual_type := some "Solo" }

/-- Evidence entry for the instrument 250 nm cross-country requirement. -/
def mkIrEv (f : Flight) : QualifyingFlight :=
  { date := f.date, aircraft_id := evidence_tail f, route := routeOf f,
    distance := distOf f, approach_count := some (approachCountOf f) }

/-- Evidence entry for the commercial 2-hour day cross-country requirement. -/
def mkDayEv (f : Flight) : QualifyingFlight :=
  { date := f.date, aircraft_id := evidence_tail f, route := routeOf f,
    distance := distOf f, duration := some (totalOf f) }

/-- Evidence entry for the commercial 2-hour night cross-country
requirement. -/
def mkNightEv (f : Flight) : QualifyingFlight :=
  { date := f.date, aircraft_id := evidence_tail f, route := routeOf f,
    distance := distOf f, duration := some (nightOf f) }

/-- Evidence entry for the commercial 300 nm cross-country requirement. -/
def mk300Ev (f : Flight) : QualifyingFlight :=
  { date := f.date, aircraft_id := evidence_tail f, route := routeOf f,
    distance := distOf f }

/-- Per-flight `complex_dual` contribution: `min(dual_received, complex_time)`
counted only when both are positive. -/
def complexDualContrib (f : Flight) : ℚ :=
  if 0 < drOf f ∧ 0 < cxOf f then min (drOf f) (cxOf f) else 0

/-- Per-flight `pic_xc` contribution: `min(pic, cross_country)` counted only
when both are positive. -/
def picXcContrib (f : Flight) : ℚ :=
  if 0 < picOf f ∧ 0 < ccOf f then min (picOf f) (ccOf f) else 0

/-- Per-flight `dual_xc` contribution. -/
def dualXcContrib (f : Flight) : ℚ :=
  if 0 < drOf f ∧ 0 < ccOf f then min (drOf f) (ccOf f) else 0

/-- Per-flight `instrument_dual_airplane` contribution: airplane only
(`simulated_flight == 0`), student acting PIC, hood time present. -/
def instrDualAirplaneContrib (f : Flight) : ℚ :=
  if 0 < drOf f ∧ 0 < picOf f ∧ 0 < siOf f ∧ sfOf f = 0 then
    min (drOf f) (siOf f)
  else 0

/-- Per-flight `instrument_dual_simulator` contribution: simulator sessions
with dual instruction and hood time. -/
def instrDualSimContrib (f : Flight) : ℚ :=
  if 0 < drOf f ∧ 0 < sfOf f ∧ 0 < siOf f then min (drOf f) (siOf f) else 0

/-- Per-flight recent-instrument contribution: airplane-only dual instrument
time inside the `[today − 60 days, today]` window. -/
def recentInstrContrib (today : Int) (f : Flight) : ℚ :=
  if 0 < drOf f ∧ (0 < aiOf f ∨ 0 < siOf f) ∧ sfOf f = 0 ∧ today - 60 ≤ f.date then
    min (drOf f) (aiOf f + siOf f)
  else 0

/-- Per-flight checkride-prep contribution: dual received in an airplane
inside the 2-calendar-month window. -/
def checkridePrepContrib (today : Int) (f : Flight) : ℚ :=
  if 0 < drOf f ∧ today - 60 ≤ f.date ∧ sfOf f = 0 then drOf f else 0

/-- Private long cross-country qualification predicate:
`distance >= 150 and solo > 0 and segments >= 3`. -/
def privLongQual (f : Flight) : Bool :=
  decide (150 ≤ distOf f) && decide (0 < soloOf f) &&
  decide (3 ≤ count_route_segments (routeOf f))

/-- Per-flight solo towered-operations contribution from day takeoffs at a
towered departure airport. -/
def toweredTkContrib (f : Flight) : Int :=
  if 0 < soloOf f ∧ is_towered_airport (depOf f) = true ∧ 0 < dtkOf f then
    dtkOf f
  else 0

/-- Per-flight solo towered-operations contribution from day full-stop
landings at a towered arrival airport. -/
def toweredLdContrib (f : Flight) : Int :=
  if 0 < soloOf f ∧ is_towered_airport (arrOf f) = true ∧ 0 < dldOf f then
    dldOf f
  else 0

/-- Accumulator state of the main per-flight loop of
`recalculate_hours_from_flights`: the `totals` keys it touches, the
`long_xc_completed` / `towered_ops_count` flags and counters, the two
2-month-window accumulators, and the private long-XC evidence list. -/
structure LoopState where
  total : ℚ := 0
  pic : ℚ := 0
  cross_country : ℚ := 0
  night : ℚ := 0
  solo : ℚ := 0
  dual_received : ℚ := 0
  dual_given : ℚ := 0
  simulator_time : ℚ := 0
  actual_instrument : ℚ := 0
  simulated_instrument : ℚ := 0
  complex : ℚ := 0
  complex_dual : ℚ := 0
  pic_xc : ℚ := 0
  dual_xc : ℚ := 0
  instrument_dual_airplane : ℚ := 0
  instrument_dual_simulator : ℚ := 0
  instrument_total : ℚ := 0
  recent_instrument : ℚ := 0
  checkride_prep : ℚ := 0
  long_xc : Nat := 0
  towered : Int := 0
  evid : List QualifyingFlight := []
deriving DecidableEq

/-- One iteration of the main aggregation loop. Each `x += v if cond`
statement of the source is rendered as adding the corresponding
conditional contribution; the `long_xc_completed` flag is set on any
qualifying flight and the first qualifying flight is recorded as evidence
(`if not private_long_xc_flights: append`). -/
def mainStep (today : Int) (s : LoopState) (f : Flight) : LoopState :=
  { total := s.total + totalOf f
    pic := s.pic + picOf f
    cross_country := s.cross_country + ccOf f
    night := s.night + nightOf f
    solo := s.solo + soloOf f
    dual_received := s.dual_received + drOf f
    dual_given := s.dual_given + dgOf f
    simulator_time := s.simulator_time + sfOf f
    actual_instrument := s.actual_instrument + aiOf f
    simulated_instrument := s.simulated_instrument + siOf f
    complex := s.complex + cxOf f
    complex_dual := s.complex_dual + complexDualContrib f
    pic_xc := s.pic_xc + picXcContrib f
    dual_xc := s.dual_xc + dualXcContrib f
    instrument_dual_airplane := s.instrument_dual_airplane + instrDualAirplaneContrib f
    instrument_dual_simulator := s.instrument_dual_simulator + instrDualSimContrib f
    instrument_total := s.instrument_total + (aiOf f + siOf f)
    recent_instrument := s.recent_instrument + recentInstrContrib today f
    checkride_prep := s.checkride_prep + checkridePrepContrib today f
    long_xc := if privLongQual f then 1 else s.long_xc
    towered := s.towered + toweredTkContrib f + toweredLdContrib f
    evid := if privLongQual f && s.evid.isEmpty then s.evid ++ [mkPrivEv f] else s.evid }

/-- The main aggregation loop over the flight history. -/
def mainLoop (today : Int) (fs : List Flight) (s : LoopState) : LoopState :=
  fs.foldl (mainStep today) s

/-- Per-flight night-VFR contribution (CPL Req 17 loop): any night time on a
flight flown solo or with dual instruction. -/
def nightVfrContrib (f : Flight) : ℚ :=
  if 0 < nightOf f ∧ (0 < soloOf f ∨ 0 < drOf f) then nightOf f else 0

/-- The CPL Req 17 loop (`night_vfr_count` accumulator). -/
def nightVfrLoop (fs : List Flight) : ℚ :=
  fs.foldl (fun a f => a + nightVfrContrib f) 0

/-- Per-flight contribution to `cpl_night_takeoffs_towered`: night takeoffs
at a towered departure airport on a flight with night time. -/
def nightTkContrib (f : Flight) : Int :=
  if 0 < nightOf f ∧ is_towered_airport (depOf f) = true ∧ 0 < ntkOf f then
    ntkOf f
  else 0

/-- Per-flight contribution to `cpl_night_landings_towered`. -/
def nightLdContrib (f : Flight) : Int :=
  if 0 < nightOf f ∧ is_towered_airport (arrOf f) = true ∧ 0 < nldOf f then
    nldOf f
  else 0

/-- The CPL Req 18 loop: raw night towered takeoff/landing counters before
the cap. -/
def nightToweredLoop (fs : List Flight) : Int × Int :=
  fs.foldl (fun p f => (p.1 + nightTkContrib f, p.2 + nightLdContrib f)) (0, 0)

/-- Instrument 250 nm cross-country qualification predicate. -/
def irQual (f : Flight) : Bool :=
  decide (250 ≤ distOf f) && decide (3 ≤ approachCountOf f) &&
  decide (3 ≤ count_route_segments (routeOf f)) &&
  (decide (0 < aiOf f) || decide (0 < siOf f))

/-- Commercial 2-hour day cross-country qualification predicate, including
the `is_day = night == 0 or total_time > night` guard. -/
def dayXcQual (f : Flight) : Bool :=
  (decide (nightOf f = 0) || decide (nightOf f < totalOf f)) &&
  decide (2 ≤ totalOf f) && decide (100 ≤ distOf f) && decide (0 < drOf f)

/-- Commercial 2-hour night cross-country qualification predicate:
`night >= 2 and distance >= 100 and dual_received > 0`. -/
def nightXcQual (f : Flight) : Bool :=
  decide (2 ≤ nightOf f) && decide (100 ≤ distOf f) && decide (0 < drOf f)

/-- Commercial 300 nm cross-country qualification predicate. -/
def xc300Qual (f : Flight) : Bool :=
  decide (300 ≤ distOf f) && decide (3 ≤ count_route_segments (routeOf f)) &&
  (decide (0 < soloOf f) || (decide (0 < picOf f) && decide (0 < drOf f)))

/-- State of the second qualification pass (`Check for qualifying IR and CPL
XC flights`): the four 0/1 flags (pre-initialized to `Decimal("0")` in
`totals`) and their evidence lists. -/
structure QualState where
  ir : ℚ := 0
  qf_ir : List QualifyingFlight := []
  day : ℚ := 0
  qf_day : List QualifyingFlight := []
  nightQ : ℚ := 0
  qf_night : List QualifyingFlight := []
  xc300 : ℚ := 0
  qf_300 : List QualifyingFlight := []
deriving DecidableEq

/-- One iteration of the qualification pass: each requirement flips its flag
to 1 and records the flight as evidence on the first qualifying flight
(`if totals[...] == 0`). -/
def qualStep (s : QualState) (f : Flight) : QualState :=
  { ir := if irQual f ∧ s.ir = 0 then 1 else s.ir
    qf_ir := if irQual f ∧ s.ir = 0 then s.qf_ir ++ [mkIrEv f] else s.qf_ir
    day := if dayXcQual f ∧ s.day = 0 then 1 else s.day
    qf_day := if dayXcQual f ∧ s.day = 0 then s.qf_day ++ [mkDayEv f] else s.qf_day
    nightQ := if nightXcQual f ∧ s.nightQ = 0 then 1 else s.nightQ
    qf_night := if nightXcQual f ∧ s.nightQ = 0 then s.qf_night ++ [mkNightEv f] else s.qf_night
    xc300 := if xc300Qual f ∧ s.xc300 = 0 then 1 else s.xc300
    qf_300 := if xc300Qual f ∧ s.xc300 = 0 then s.qf_300 ++ [mk300Ev f] else s.qf_300 }

/-- The qualification pass over the flight history. -/
def qualLoop (fs : List Flight) (s : QualState) : QualState :=
  fs.foldl qualStep s

/-- The hours snapshot assembled by `recalculate_hours_from_flights`: the
flat metric map (a `defaultdict`, so a never-touched key reads as 0) plus the
`_qualifying_flights` evidence map. -/
structure Snapshot where
  total : ℚ
  pic : ℚ
  cross_country : ℚ
  night : ℚ
  solo : ℚ
  dual_received : ℚ
  dual_given : ℚ
  simulator_time : ℚ
  actual_instrument : ℚ
  simulated_instrument : ℚ
  complex : ℚ
  complex_dual : ℚ
  pic_xc : ℚ
  dual_xc : ℚ
  instrument_dual_airplane : ℚ
  instrument_dual_simulator : ℚ
  instrument_total : ℚ
  private_long_xc : ℚ
  private_towered_ops : ℚ
  recent_instrument : ℚ
  ir_250nm_xc : ℚ
  cpl_sim_instrument_training : ℚ
  cpl_sim_instrument_airplane : ℚ
  cpl_complex_turbine_taa : ℚ
  cpl_2hr_day_xc : ℚ
  cpl_2hr_night_xc : ℚ
  cpl_checkride_prep_recent : ℚ
  cpl_solo_se : ℚ
  cpl_300nm_xc : ℚ
  cpl_night_vfr : ℚ
  cpl_night_takeoffs_towered : ℚ
  cpl_night_landings_towered : ℚ
  qf_private_long_xc : List QualifyingFlight
  qf_ir_250nm_xc : List QualifyingFlight
  qf_cpl_2hr_day_xc : List QualifyingFlight
  qf_cpl_2hr_night_xc : List QualifyingFlight
  qf_cpl_300nm_xc : List QualifyingFlight
deriving DecidableEq

/-- Embeds the successful path of `recalculate_hours_from_flights`: run the
main loop, the night-VFR loop, the night-towered loop and the qualification
pass over the full (date-ordered) flight history, then assemble the snapshot
exactly as the handler fills `totals` and `_qualifying_flights`. `today` is
the current day number used for the 2-calendar-month (60-day) windows. -/
def computeSnapshot (today : Int) (flights : List Flight) : Snapshot :=
  let L := mainLoop today flights {}
  let nv := nightVfrLoop flights
  let nt := nightToweredLoop flights
  let Q := qualLoop flights {}
  { total := L.total
    pic := L.pic
    cross_country := L.cross_country
    night := L.night
    solo := L.solo
    dual_received := L.dual_received
    dual_given := L.dual_given
    simulator_time := L.simulator_time
    actual_instrument := L.actual_instrument
    simulated_instrument := L.simulated_instrument
    complex := L.complex
    complex_dual := L.complex_dual
    pic_xc := L.pic_xc
    dual_xc := L.dual_xc
    instrument_dual_airplane := L.instrument_dual_airplane
    instrument_dual_simulator := L.instrument_dual_simulator
    instrument_total := L.instrument_total
    private_long_xc := (L.long_xc : ℚ)
    private_towered_ops := ((min L.towered 3 : Int) : ℚ)
    recent_instrument := L.recent_instrument
    ir_250nm_xc := Q.ir
    cpl_sim_instrument_training :=
      L.instrument_dual_airplane + min L.instrument_dual_simulator 5
    cpl_sim_instrument_airplane := L.instrument_dual_airplane
    cpl_complex_turbine_taa := L.complex_dual
    cpl_2hr_day_xc := Q.day
    cpl_2hr_night_xc := Q.nightQ
    cpl_checkride_prep_recent := L.checkride_prep
    cpl_solo_se := L.solo
    cpl_300nm_xc := Q.xc300
    cpl_night_vfr := nv
    cpl_night_takeoffs_towered := ((min nt.1 10 : Int) : ℚ)
    cpl_night_landings_towered := ((min nt.2 10 : Int) : ℚ)
    qf_private_long_xc := L.evid
    qf_ir_250nm_xc := Q.qf_ir
    qf_cpl_2hr_day_xc := Q.qf_day
    qf_cpl_2hr_night_xc := Q.qf_night
    qf_cpl_300nm_xc := Q.qf_300 }

/-- Embeds `recalculate_hours_from_flights` at its interface: with no
persisted flights it raises `HTTPException(404, "No flights found")`
(modelled as `Except.error`), otherwise it returns the computed snapshot. -/
def recalculate_hours_from_flights (today : Int) (flights : List Flight) :
    Except String Snapshot :=
  if flights.isEmpty then .error "No flights found"
  else .ok (computeSnapshot today flights)

/-- All parsed duration fields of a stored flight are nonnegative. -/
def DurNonneg (f : Flight) : Prop :=
  0 ≤ totalOf f ∧ 0 ≤ picOf f ∧ 0 ≤ ccOf f ∧ 0 ≤ nightOf f ∧ 0 ≤ soloOf f ∧
  0 ≤ drOf f ∧ 0 ≤ dgOf f ∧ 0 ≤ sfOf f ∧ 0 ≤ aiOf f ∧ 0 ≤ siOf f ∧ 0 ≤ cxOf f

/-- Every metric of a snapshot is nonnegative. -/
def SnapshotNonneg (s : Snapshot) : Prop :=
  0 ≤ s.total ∧ 0 ≤ s.pic ∧ 0 ≤ s.cross_country ∧ 0 ≤ s.night ∧ 0 ≤ s.solo ∧
  0 ≤ s.dual_received ∧ 0 ≤ s.dual_given ∧ 0 ≤ s.simulator_time ∧
  0 ≤ s.actual_instrument ∧ 0 ≤ s.simulated_instrument ∧ 0 ≤ s.complex ∧
  0 ≤ s.complex_dual ∧ 0 ≤ s.pic_xc ∧ 0 ≤ s.dual_xc ∧
  0 ≤ s.instrument_dual_airplane ∧ 0 ≤ s.instrument_dual_simulator ∧
  0 ≤ s.instrument_total ∧ 0 ≤ s.private_long_xc ∧ 0 ≤ s.private_towered_ops ∧
  0 ≤ s.recent_instrument ∧ 0 ≤ s.ir_250nm_xc ∧
  0 ≤ s.cpl_sim_instrument_training ∧ 0 ≤ s.cpl_sim_instrument_airplane ∧
  0 ≤ s.cpl_complex_turbine_taa ∧ 0 ≤ s.cpl_2hr_day_xc ∧ 0 ≤ s.cpl_2hr_night_xc ∧
  0 ≤ s.cpl_checkride_prep_recent ∧ 0 ≤ s.cpl_solo_se ∧ 0 ≤ s.cpl_300nm_xc ∧
  0 ≤ s.cpl_night_vfr ∧ 0 ≤ s.cpl_night_takeoffs_towered ∧
  0 ≤ s.cpl_night_landings_towered

/-! ### Concrete records used by witnesses and counterexamples -/

/-- A flight with negative `pic_time`, exhibiting the unclamped parser. -/
def cexPicFlight : Flight :=
  { date := 0, pic_time := some (-1), cross_country_time := some 1 }

/-- An ordinary positive flight. -/
def wPicFlight : Flight :=
  { date := 0, pic_time := some 2, cross_country_time := some (3/2) }

/-- The spec's example private long cross-country flight: distance 160,
solo 1.0, route `KAMW KDSM KALO KAMW`. -/
def wLongXcFlight : Flight :=
  { date := 100, tail_number := some "N12345", total_time := some 2,
    solo_time := some 1, route := some "KAMW KDSM KALO KAMW",
    distance := some 160 }

/-- A flight whose stored `total_time` is exactly what `_safe_float` returns
on the CSV cell `"-1.5"`. -/
def cexNegFlight : Flight := { date := 0, total_time := safe_float (some "-1.5") }

/-- A night flight of 2.0 hours over 100 nm with no dual instruction. -/
def cexNightNoDualFlight : Flight :=
  { date := 0, night_time := some 2, distance := some 100 }

/-- A night flight qualifying for the commercial night cross-country. -/
def wNightXcFlight : Flight :=
  { date := 5, tail_number := some "N777", night_time := some 2,
    distance := some 120, dual_received_time := some 1,
    route := some "KAMW KDSM" }

/-- A night flight with a negative stored night-takeoffs counter at a towered
departure airport. -/
def cexNegTkFlight : Flight :=
  { date := 0, night_time := some 1, departure_airport := some "KAMW",
    night_takeoffs := some (-2) }

/-- A night flight with towered night operations on both ends. -/
def wNightOpsFlight : Flight :=
  { date := 0, night_time := some 1, departure_airport := some "KAMW",
    arrival_airport := some "KALO", night_takeoffs := some 4,
    night_landings_full_stop := some 3 }

/-- An import row with `TotalTime` `"1.5"`. -/
def wRowA : CsvRow :=
  { Date := some "2024-01-01", From := some "KAMW", To := some "KDSM",
    TotalTime := some "1.5", Route := some "KAMW KDSM" }

/-- A row agreeing with `wRowA` on the four hash fields but differing
elsewhere. -/
def wRowB : CsvRow :=
  { Date := some "2024-01-01", From := some "KAMW", To := some "KDSM",
    TotalTime := some "1.5", PilotComments := some "second copy" }

/-- A row agreeing with `wRowA` except that `TotalTime` is the string
`"1.50"`. -/
def wRowC : CsvRow :=
  { Date := some "2024-01-01", From := some "KAMW", To := some "KDSM",
    TotalTime := some "1.50" }

/-- A flight row flown in the simulator device `FSX172`. -/
def wFsxRow : CsvRow :=
  { Date := some "2024-01-01", AircraftID := some "FSX172",
    TotalTime := some "1.0" }

/-! ### Helper lemmas about the aggregation loops -/

/-- A fold whose step adds a per-element contribution to a projected
accumulator computes the initial value plus the sum of contributions. -/
theorem foldl_proj_sum {σ α M : Type _} [AddCommMonoid M] (step : σ → α → σ)
    (proj : σ → M) (c : α → M) (h : ∀ s a, proj (step s a) = proj s + c a) :
    ∀ (l : List α) (s : σ), proj (l.foldl step s) = proj s + (l.map c).sum := by
  intro l
  induction l with
  | nil => intro s; simp
  | cons a t ih =>
    intro s
    simp only [List.foldl_cons, List.map_cons, List.sum_cons, ih, h, add_assoc]

theorem mainLoop_total (today : Int) (fs : List Flight) (s : LoopState) :
    (mainLoop today fs s).total = s.total + (fs.map totalOf).sum :=
  foldl_proj_sum (mainStep today) (fun s => s.total) totalOf (fun _ _ => rfl) fs s

theorem mainLoop_pic (today : Int) (fs : List Flight) (s : LoopState) :
    (mainLoop today fs s).pic = s.pic + (fs.map picOf).sum :=
  foldl_proj_sum (mainStep today) (fun s => s.pic) picOf (fun _ _ => rfl) fs s

theorem mainLoop_cross_country (today : Int) (fs : List Flight) (s : LoopState) :
    (mainLoop today fs s).cross_country = s.cross_country + (fs.map ccOf).sum :=
  foldl_proj_sum (mainStep today) (fun s => s.cross_country) ccOf (fun _ _ => rfl) fs s

theorem mainLoop_night (today : Int) (fs : List Flight) (s : LoopState) :
    (mainLoop today fs s).night = s.night + (fs.map nightOf).sum :=
  foldl_proj_sum (mainStep today) (fun s => s.night) nightOf (fun _ _ => rfl) fs s

theorem mainLoop_solo (today : Int) (fs : List Flight) (s : LoopState) :
    (mainLoop today fs s).solo = s.solo + (fs.map soloOf).sum :=
  foldl_proj_sum (mainStep today) (fun s => s.solo) soloOf (fun _ _ => rfl) fs s

theorem mainLoop_dual_received (today : Int) (fs : List Flight) (s : LoopState) :
    (mainLoop today fs s).dual_received = s.dual_received + (fs.map drOf).sum :=
  foldl_proj_sum (mainStep today) (fun s => s.dual_received) drOf (fun _ _ => rfl) fs s

theorem mainLoop_dual_given (today : Int) (fs : List Flight) (s : LoopState) :
    (mainLoop today fs s).dual_given = s.dual_given + (fs.map dgOf).sum :=
  foldl_proj_sum (mainStep today) (fun s => s.dual_given) dgOf (fun _ _ => rfl) fs s

theorem mainLoop_simulator_time (today : Int) (fs : List Flight) (s : LoopState) :
    (mainLoop today fs s).simulator_time = s.simulator_time + (fs.map sfOf).sum :=
  foldl_proj_sum (mainStep today) (fun s => s.simulator_time) sfOf (fun _ _ => rfl) fs s

theorem mainLoop_actual_instrument (today : Int) (fs : List Flight) (s : LoopState) :
    (mainLoop today fs s).actual_instrument = s.actual_instrument + (fs.map aiOf).sum :=
  foldl_proj_sum (mainStep today) (fun s => s.actual_instrument) aiOf (fun _ _ => rfl) fs s

theorem mainLoop_simulated_instrument (today : Int) (fs : List Flight) (s : LoopState) :
    (mainLoop today fs s).simulated_instrument = s.simulated_instrument + (fs.map siOf).sum :=
  foldl_proj_sum (mainStep today) (fun s => s.simulated_instrument) siOf (fun _ _ => rfl) fs s

theorem mainLoop_complex (today : Int) (fs : List Flight) (s : LoopState) :
    (mainLoop today fs s).complex = s.complex + (fs.map cxOf).sum :=
  foldl_proj_sum (mainStep today) (fun s => s.complex) cxOf (fun _ _ => rfl) fs s

theorem mainLoop_complex_dual (today : Int) (fs : List Flight) (s : LoopState) :
    (mainLoop today fs s).complex_dual = s.complex_dual + (fs.map complexDualContrib).sum :=
  foldl_proj_sum (mainStep today) (fun s => s.complex_dual) complexDualContrib
    (fun _ _ => rfl) fs s

theorem mainLoop_pic_xc (today : Int) (fs : List Flight) (s : LoopState) :
    (mainLoop today fs s).pic_xc = s.pic_xc + (fs.map picXcContrib).sum :=
  foldl_proj_sum (mainStep today) (fun s => s.pic_xc) picXcContrib (fun _ _ => rfl) fs s

theorem mainLoop_dual_xc (today : Int) (fs : List Flight) (s : LoopState) :
    (mainLoop today fs s).dual_xc = s.dual_xc + (fs.map dualXcContrib).sum :=
  foldl_proj_sum (mainStep today) (fun s => s.dual_xc) dualXcContrib (fun _ _ => rfl) fs s

theorem mainLoop_ida (today : Int) (fs : List Flight) (s : LoopState) :
    (mainLoop today fs s).instrument_dual_airplane =
      s.instrument_dual_airplane + (fs.map instrDualAirplaneContrib).sum :=
  foldl_proj_sum (mainStep today) (fun s => s.instrument_dual_airplane)
    instrDualAirplaneContrib (fun _ _ => rfl) fs s

theorem mainLoop_ids (today : Int) (fs : List Flight) (s : LoopState) :
    (mainLoop today fs s).instrument_dual_simulator =
      s.instrument_dual_simulator + (fs.map instrDualSimContrib).sum :=
  foldl_proj_sum (mainStep today) (fun s => s.instrument_dual_simulator)
    instrDualSimContrib (fun _ _ => rfl) fs s

theorem mainLoop_instrument_total (today : Int) (fs : List Flight) (s : LoopState) :
    (mainLoop today fs s).instrument_total =
      s.instrument_total + (fs.map (fun f => aiOf f + siOf f)).sum :=
  foldl_proj_sum (mainStep today) (fun s => s.instrument_total)
    (fun f => aiOf f + siOf f) (fun _ _ => rfl) fs s

theorem mainLoop_recent_instrument (today : Int) (fs : List Flight) (s : LoopState) :
    (mainLoop today fs s).recent_instrument =
      s.recent_instrument + (fs.map (recentInstrContrib today)).sum :=
  foldl_proj_sum (mainStep today) (fun s => s.recent_instrument)
    (recentInstrContrib today) (fun _ _ => rfl) fs s

theorem mainLoop_checkride_prep (today : Int) (fs : List Flight) (s : LoopState) :
    (mainLoop today fs s).checkride_prep =
      s.checkride_prep + (fs.map (checkridePrepContrib today)).sum :=
  foldl_proj_sum (mainStep today) (fun s => s.checkride_prep)
    (checkridePrepContrib today) (fun _ _ => rfl) fs s

theorem mainLoop_towered (today : Int) (fs : List Flight) (s : LoopState) :
    (mainLoop today fs s).towered =
      s.towered + (fs.map (fun f => toweredTkContrib f + toweredLdContrib f)).sum :=
  foldl_proj_sum (mainStep today) (fun s => s.towered)
    (fun f => toweredTkContrib f + toweredLdContrib f)
    (fun s f => by simp [mainStep, add_assoc]) fs s

theorem mainLoop_long_xc (today : Int) (fs : List Flight) :
    ∀ s : LoopState, (mainLoop today fs s).long_xc =
      if fs.any privLongQual then 1 else s.long_xc := by
  induction fs with
  | nil => intro s; simp [mainLoop]
  | cons f t ih =>
    intro s
    have hstep : mainLoop today (f :: t) s = mainLoop today t (mainStep today s f) := rfl
    rw [hstep, ih]
    cases hq : privLongQual f <;> simp [List.any_cons, hq, mainStep]

theorem mainLoop_evid_frozen (today : Int) (fs : List Flight) :
    ∀ s : LoopState, s.evid ≠ [] → (mainLoop today fs s).evid = s.evid := by
  induction fs with
  | nil => intro s _; rfl
  | cons f t ih =>
    intro s h
    have he : s.evid.isEmpty = false := by
      cases hv : s.evid with
      | nil => exact absurd hv h
      | cons a l => rfl
    have hstep : (mainStep today s f).evid = s.evid := by
      simp [mainStep, he]
    have : mainLoop today (f :: t) s = mainLoop today t (mainStep today s f) := rfl
    rw [this, ih _ (by rw [hstep]; exact h), hstep]

theorem mainLoop_evid (today : Int) (fs : List Flight) :
    ∀ s : LoopState, s.evid = [] →
      (mainLoop today fs s).evid = ((fs.find? privLongQual).map mkPrivEv).toList := by
  induction fs with
  | nil => intro s h; simpa [mainLoop] using h
  | cons f t ih =>
    intro s h
    have hstep : mainLoop today (f :: t) s = mainLoop today t (mainStep today s f) := rfl
    cases hq : privLongQual f with
    | true =>
      have he : (mainStep today s f).evid = [mkPrivEv f] := by
        simp [mainStep, hq, h]
      rw [hstep, mainLoop_evid_frozen today t _ (by rw [he]; simp), he]
      simp [List.find?, hq]
    | false =>
      have he : (mainStep today s f).evid = s.evid := by
        simp [mainStep, hq]
      rw [hstep, ih _ (by rw [he]; exact h)]
      simp [List.find?, hq]

/-- First-match recorder pattern shared by the four qualification flags of the
second pass: a flag that flips from 0 to 1 on the first element satisfying
`q`, freezing its evidence list afterwards. -/
theorem foldl_first_match {σ : Type _} (step : σ → Flight → σ) (q : Flight → Bool)
    (flag : σ → ℚ) (ev : σ → List QualifyingFlight) (mk : Flight → QualifyingFlight)
    (hstep1 : ∀ s f, q f = true → flag s = 0 →
      flag (step s f) = 1 ∧ ev (step s f) = ev s ++ [mk f])
    (hstep2 : ∀ s f, q f = true → flag s ≠ 0 →
      flag (step s f) = flag s ∧ ev (step s f) = ev s)
    (hstep3 : ∀ s f, q f = false →
      flag (step s f) = flag s ∧ ev (step s f) = ev s) :
    ∀ (fs : List Flight) (s : σ),
      (flag s ≠ 0 → flag (fs.foldl step s) = flag s ∧ ev (fs.foldl step s) = ev s) ∧
      (flag s = 0 → flag (fs.foldl step s) = (if fs.any q then 1 else 0) ∧
        ev (fs.foldl step s) = ev s ++ ((fs.find? q).map mk).toList) := by
  intro fs
  induction fs with
  | nil => intro s; constructor <;> intro h <;> simp [h]
  | cons f t ih =>
    intro s
    constructor
    · intro h
      cases hq : q f with
      | true =>
        have hs := hstep2 s f hq h
        have := (ih (step s f)).1 (by rw [hs.1]; exact h)
        exact ⟨by rw [List.foldl_cons, this.1, hs.1],
               by rw [List.foldl_cons, this.2, hs.2]⟩
      | false =>
        have hs := hstep3 s f hq
        have := (ih (step s f)).1 (by rw [hs.1]; exact h)
        exact ⟨by rw [List.foldl_cons, this.1, hs.1],
               by rw [List.foldl_cons, this.2, hs.2]⟩
    · intro h
      cases hq : q f with
      | true =>
        have hs := hstep1 s f hq h
        have := (ih (step s f)).1 (by rw [hs.1]; norm_num)
        constructor
        · rw [List.foldl_cons, this.1, hs.1]; simp [List.any_cons, hq]
        · rw [List.foldl_cons, this.2, hs.2]; simp [List.find?, hq]
      | false =>
        have hs := hstep3 s f hq
        have := (ih (step s f)).2 (by rw [hs.1]; exact h)
        constructor
        · rw [List.foldl_cons, this.1]; simp [List.any_cons, hq]
        · rw [List.foldl_cons, this.2, hs.2]; simp [List.find?, hq]

theorem qualLoop_ir (fs : List Flight) (s : QualState) :
    (s.ir ≠ 0 → (qualLoop fs s).ir = s.ir ∧ (qualLoop fs s).qf_ir = s.qf_ir) ∧
    (s.ir = 0 → (qualLoop fs s).ir = (if fs.any irQual then 1 else 0) ∧
      (qualLoop fs s).qf_ir = s.qf_ir ++ ((fs.find? irQual).map mkIrEv).toList) :=
  foldl_first_match qualStep irQual (fun s => s.ir) (fun s => s.qf_ir) mkIrEv
    (fun s f hq h0 => by constructor <;> simp [qualStep, hq, h0])
    (fun s f hq h0 => by constructor <;> simp [qualStep, hq, h0])
    (fun s f hq => by constructor <;> simp [qualStep, hq]) fs s

theorem qualLoop_day (fs : List Flight) (s : QualState) :
    (s.day ≠ 0 → (qualLoop fs s).day = s.day ∧ (qualLoop fs s).qf_day = s.qf_day) ∧
    (s.day = 0 → (qualLoop fs s).day = (if fs.any dayXcQual then 1 else 0) ∧
      (qualLoop fs s).qf_day = s.qf_day ++ ((fs.find? dayXcQual).map mkDayEv).toList) :=
  foldl_first_match qualStep dayXcQual (fun s => s.day) (fun s => s.qf_day) mkDayEv
    (fun s f hq h0 => by constructor <;> simp [qualStep, hq, h0])
    (fun s f hq h0 => by constructor <;> simp [qualStep, hq, h0])
    (fun s f hq => by constructor <;> simp [qualStep, hq]) fs s

theorem qualLoop_nightQ (fs : List Flight) (s : QualState) :
    (s.nightQ ≠ 0 →
      (qualLoop fs s).nightQ = s.nightQ ∧ (qualLoop fs s).qf_night = s.qf_night) ∧
    (s.nightQ = 0 → (qualLoop fs s).nightQ = (if fs.any nightXcQual then 1 else 0) ∧
      (qualLoop fs s).qf_night =
        s.qf_night ++ ((fs.find? nightXcQual).map mkNightEv).toList) :=
  foldl_first_match qualStep nightXcQual (fun s => s.nightQ) (fun s => s.qf_night)
    mkNightEv
    (fun s f hq h0 => by constructor <;> simp [qualStep, hq, h0])
    (fun s f hq h0 => by constructor <;> simp [qualStep, hq, h0])
    (fun s f hq => by constructor <;> simp [qualStep, hq]) fs s

theorem qualLoop_xc300 (fs : List Flight) (s : QualState) :
    (s.xc300 ≠ 0 →
      (qualLoop fs s).xc300 = s.xc300 ∧ (qualLoop fs s).qf_300 = s.qf_300) ∧
    (s.xc300 = 0 → (qualLoop fs s).xc300 = (if fs.any xc300Qual then 1 else 0) ∧
      (qualLoop fs s).qf_300 = s.qf_300 ++ ((fs.find? xc300Qual).map mk300Ev).toList) :=
  foldl_first_match qualStep xc300Qual (fun s => s.xc300) (fun s => s.qf_300) mk300Ev
    (fun s f hq h0 => by constructor <;> simp [qualStep, hq, h0])
    (fun s f hq h0 => by constructor <;> simp [qualStep, hq, h0])
    (fun s f hq => by constructor <;> simp [qualStep, hq]) fs s

theorem nightVfrLoop_sum (fs : List Flight) :
    nightVfrLoop fs = (fs.map nightVfrContrib).sum := by
  have := foldl_proj_sum (fun (a : ℚ) f => a + nightVfrContrib f) (fun a => a)
    nightVfrContrib (fun _ _ => rfl) fs 0
  simpa [nightVfrLoop] using this

theorem nightToweredLoop_fst (fs : List Flight) :
    (nightToweredLoop fs).1 = (fs.map nightTkContrib).sum := by
  have := foldl_proj_sum
    (fun (p : Int × Int) f => (p.1 + nightTkContrib f, p.2 + nightLdContrib f))
    Prod.fst nightTkContrib (fun _ _ => rfl) fs (0, 0)
  simpa [nightToweredLoop] using this

theorem nightToweredLoop_snd (fs : List Flight) :
    (nightToweredLoop fs).2 = (fs.map nightLdContrib).sum := by
  have := foldl_proj_sum
    (fun (p : Int × Int) f => (p.1 + nightTkContrib f, p.2 + nightLdContrib f))
    Prod.snd nightLdContrib (fun _ _ => rfl) fs (0, 0)
  simpa [nightToweredLoop] using this

/-! ### Claim C2 — empty input raises, nonempty returns a snapshot -/

/-- C2: with no persisted flights the recalculation raises the empty-input
error (`HTTPException(404, "No flights found")`, the concrete surface of the
spec's `AggregationEmptyInput` / "no data") instead of returning an all-zero
snapshot; with a nonempty flight set it returns the computed snapshot. -/
theorem recalculate_empty_raises (today : Int) (flights : List Flight) :
    (flights = [] →
      recalculate_hours_from_flights today flights = .error "No flights found") ∧
    (flights ≠ [] →
      recalculate_hours_from_flights today flights =
        .ok (computeSnapshot today flights)) := by
  constructor <;> intro h
  · rw [h]; rfl
  · have : flights.isEmpty = false := by
      cases hv : flights with
      | nil => exact absurd hv h
      | cons a l => rfl
    simp [recalculate_hours_from_flights, this]

/-- Witness for C2 at concrete inputs. -/
theorem recalculate_empty_raises_witness :
    recalculate_hours_from_flights 0 ([] : List Flight) = .error "No flights found" ∧
    recalculate_hours_from_flights 0 [wPicFlight] =
      .ok (computeSnapshot 0 [wPicFlight]) :=
  ⟨(recalculate_empty_raises 0 []).1 rfl,
   (recalculate_empty_raises 0 [wPicFlight]).2 (by simp)⟩

/-! ### Claim C8 — high-performance classification of SR22 and 172S -/

/-- C8 counterexample: for an absent (or empty) make the claim asserts
`should_be_high_performance(make, "SR22") == true`, but the source returns
`False` from the `if not make or not model` guard. -/
theorem hp_empty_make_counterexample :
    should_be_high_performance none (some "SR22") = false ∧
    should_be_high_performance (some "") (some "SR22") = false := by
  constructor <;> rfl

/-- C8 amended: for every nonempty (truthy) make, `SR22` is classified
high-performance and `172S` is not; the decision is pure substring matching
of the model against the fixed token list, so the make text is otherwise
irrelevant. With an absent or empty make the function returns `false`. -/
theorem hp_sr22_true_172s_false (mk : String) (h : mk ≠ "") :
    should_be_high_performance (some mk) (some "SR22") = true ∧
    should_be_high_performance (some mk) (some "172S") = false := by
  have ht : truthy (some mk) = true := by
    simp [truthy, h]
  constructor <;>
    simp only [should_be_high_performance, ht, Bool.not_true, Bool.false_or] <;>
    decide

/-- Witness for C8 at a concrete make. -/
theorem hp_sr22_true_172s_false_witness :
    should_be_high_performance (some "Cirrus") (some "SR22") = true ∧
    should_be_high_performance (some "Cirrus") (some "172S") = false :=
  hp_sr22_true_172s_false "Cirrus" (by decide)

/-! ### Claim C3 — private long cross-country flag and evidence -/

/-- C3: over the date-ascending flight history, `private_long_xc` is 1
exactly when some flight has distance ≥ 150 nm, positive solo time and at
least 3 route tokens starting with `K` of length 4; the evidence list holds
exactly the first qualifying flight in iteration order, and is empty when no
flight qualifies. -/
theorem private_long_xc_first_qualifying (today : Int) (flights : List Flight)
    (hsorted : List.Sorted (· ≤ ·) (flights.map Flight.date)) :
    (computeSnapshot today flights).private_long_xc =
      (if flights.any privLongQual then 1 else 0) ∧
    (computeSnapshot today flights).qf_private_long_xc =
      ((flights.find? privLongQual).map mkPrivEv).toList := by
  constructor
  · show ((mainLoop today flights {}).long_xc : ℚ) = _
    rw [mainLoop_long_xc]
    split <;> simp
  · exact mainLoop_evid today flights {} rfl

/-- Witness for C3 at the spec's example flight (distance 160, solo 1.0,
route `KAMW KDSM KALO KAMW`). -/
theorem private_long_xc_first_qualifying_witness :
    (computeSnapshot 200 [wLongXcFlight]).private_long_xc =
      (if [wLongXcFlight].any privLongQual then 1 else 0) ∧
    (computeSnapshot 200 [wLongXcFlight]).qf_private_long_xc =
      (([wLongXcFlight].find? privLongQual).map mkPrivEv).toList :=
  private_long_xc_first_qualifying 200 [wLongXcFlight] (by simp)

/-! ### Claim C5 — commercial 2-hour night cross-country flag -/

/-- C5 counterexample: a flight with night time ≥ 2.0 and distance ≥ 100 but
no dual instruction does NOT set `cpl_2hr_night_xc` — the source additionally
requires `dual_received > 0`, which the claim says does not exist. -/
theorem cpl_night_xc_missing_dual_counterexample :
    2 ≤ nightOf cexNightNoDualFlight ∧ 100 ≤ distOf cexNightNoDualFlight ∧
    (computeSnapshot 0 [cexNightNoDualFlight]).cpl_2hr_night_xc = 0 ∧
    (computeSnapshot 0 [cexNightNoDualFlight]).qf_cpl_2hr_night_xc = [] := by
  have hq : nightXcQual cexNightNoDualFlight = false := by decide
  refine ⟨by decide, by decide, ?_, ?_⟩
  · have h := ((qualLoop_nightQ [cexNightNoDualFlight] {}).2 rfl).1
    show (qualLoop [cexNightNoDualFlight] {}).nightQ = 0
    rw [h]
    simp [hq]
  · have h := ((qualLoop_nightQ [cexNightNoDualFlight] {}).2 rfl).2
    show (qualLoop [cexNightNoDualFlight] {}).qf_night = []
    rw [h]
    simp [List.find?, hq]

/-- C5 amended: `cpl_2hr_night_xc` is 1 iff some flight has night time ≥ 2.0
AND distance ≥ 100 nm AND `dual_received > 0` (the additional dual-received
condition is part of the code), and the first such flight is recorded as the
single evidence entry. -/
theorem cpl_night_xc_iff_dual (today : Int) (flights : List Flight) :
    (computeSnapshot today flights).cpl_2hr_night_xc =
      (if flights.any nightXcQual then 1 else 0) ∧
    (computeSnapshot today flights).qf_cpl_2hr_night_xc =
      ((flights.find? nightXcQual).map mkNightEv).toList := by
  have h := (qualLoop_nightQ flights {}).2 rfl
  exact ⟨h.1, by simpa using h.2⟩

/-! ### Claim C1 — cross-country-while-PIC as a sum of per-flight minima -/

/-- C1 counterexample: nothing clamps stored fields, so a flight with
`pic_time = -1` and `cross_country_time = 1` contributes 0 to `pic_xc` while
`min(pic_time, cross_country_time) = -1`; both conjuncts of the claim fail on
this one-flight set. -/
theorem pic_xc_negative_time_counterexample :
    ¬ ((computeSnapshot 0 [cexPicFlight]).pic_xc =
        ([cexPicFlight].map (fun f => min (picOf f) (ccOf f))).sum) ∧
    ¬ (picXcContrib cexPicFlight ≤ min (picOf cexPicFlight) (ccOf cexPicFlight)) := by
  have hc : picXcContrib cexPicFlight = 0 := by decide
  have hm : min (picOf cexPicFlight) (ccOf cexPicFlight) = -1 := by decide
  have hs : (computeSnapshot 0 [cexPicFlight]).pic_xc = 0 := by
    show (mainLoop 0 [cexPicFlight] {}).pic_xc = 0
    rw [mainLoop_pic_xc]
    simp [hc]
  constructor
  · rw [hs]
    simp [hm]
  · rw [hc, hm]
    norm_num

/-- C1 amended: for a flight history whose `pic_time` and
`cross_country_time` are nonnegative (the situation the claim's clamping
premise was meant to ensure), the aggregated `pic_xc` equals the sum over all
flights of `min(pic_time, cross_country_time)`, and no flight's contribution
exceeds its own minimum. -/
theorem pic_xc_equals_sum_of_minima (today : Int) (flights : List Flight)
    (h : ∀ f ∈ flights, 0 ≤ picOf f ∧ 0 ≤ ccOf f) :
    (computeSnapshot today flights).pic_xc =
      (flights.map (fun f => min (picOf f) (ccOf f))).sum ∧
    ∀ f ∈ flights, picXcContrib f ≤ min (picOf f) (ccOf f) := by
  have hpt : ∀ f ∈ flights, picXcContrib f = min (picOf f) (ccOf f) := by
    intro f hf
    rcases h f hf with ⟨h1, h2⟩
    unfold picXcContrib
    split_ifs with hc
    · rfl
    · push_neg at hc
      rcases lt_or_eq_of_le h1 with hp | hp
      · have hcc : ccOf f = 0 := le_antisymm (hc hp) h2
        rw [hcc, min_eq_right h1]
      · rw [← hp, min_eq_left h2]
  constructor
  · show (mainLoop today flights {}).pic_xc = _
    rw [mainLoop_pic_xc, List.map_congr_left hpt]
    show (0 : ℚ) + _ = _
    rw [zero_add]
  · intro f hf
    exact le_of_eq (hpt f hf)

/-- Witness for C1 at a concrete nonnegative flight. -/
theorem pic_xc_equals_sum_of_minima_witness :
    (computeSnapshot 0 [wPicFlight]).pic_xc =
      ([wPicFlight].map (fun f => min (picOf f) (ccOf f))).sum ∧
    ∀ f ∈ [wPicFlight], picXcContrib f ≤ min (picOf f) (ccOf f) :=
  pic_xc_equals_sum_of_minima 0 [wPicFlight] (by
    intro f hf
    simp only [List.mem_singleton] at hf
    subst hf
    constructor <;> norm_num [picOf, ccOf, wPicFlight, parse_decimal])

/-! ### Claim C9 — night towered operations capped at 10 -/

/-- C9 counterexample: a stored negative `night_takeoffs` counter (nothing
clamps it) breaks the claimed identity — the code's `> 0` guard drops the
negative counter, so the snapshot reports 0 while
`min(10, Σ takeoffs) = -2`. -/
theorem night_towered_negative_counterexample :
    (computeSnapshot 0 [cexNegTkFlight]).cpl_night_takeoffs_towered ≠
      ((min 10 (([cexNegTkFlight].map (fun f =>
          if 0 < nightOf f ∧ is_towered_airport (depOf f) = true then ntkOf f
          else 0)).sum) : Int) : ℚ) := by
  have h1 : (computeSnapshot 0 [cexNegTkFlight]).cpl_night_takeoffs_towered = 0 := by
    show ((min (nightToweredLoop [cexNegTkFlight]).1 10 : Int) : ℚ) = 0
    rw [nightToweredLoop_fst]
    norm_num [show nightTkContrib cexNegTkFlight = 0 from by decide]
  have h2 : ([cexNegTkFlight].map (fun f =>
      if 0 < nightOf f ∧ is_towered_airport (depOf f) = true then ntkOf f
      else 0)).sum = -2 := by
    simp [show (if 0 < nightOf cexNegTkFlight ∧
      is_towered_airport (depOf cexNegTkFlight) = true then ntkOf cexNegTkFlight
      else 0) = -2 from by decide]
  rw [h1, h2]
  norm_num

/-- C9 amended: when the stored night takeoff/landing counters are
nonnegative (which the import's `_safe_int` does not itself guarantee), each
of the two metrics equals `min(10, ·)` of the corresponding sum over flights
with night time of the counters at towered airports. -/
theorem night_towered_capped_at_ten (today : Int) (flights : List Flight)
    (h : ∀ f ∈ flights, 0 ≤ ntkOf f ∧ 0 ≤ nldOf f) :
    (computeSnapshot today flights).cpl_night_takeoffs_towered =
      ((min 10 ((flights.map (fun f =>
        if 0 < nightOf f ∧ is_towered_airport (depOf f) = true then ntkOf f
        else 0)).sum) : Int) : ℚ) ∧
    (computeSnapshot today flights).cpl_night_landings_towered =
      ((min 10 ((flights.map (fun f =>
        if 0 < nightOf f ∧ is_towered_airport (arrOf f) = true then nldOf f
        else 0)).sum) : Int) : ℚ) := by
  have htk : ∀ f ∈ flights, nightTkContrib f =
      (if 0 < nightOf f ∧ is_towered_airport (depOf f) = true then ntkOf f else 0) := by
    intro f hf
    unfold nightTkContrib
    by_cases hc : 0 < nightOf f ∧ is_towered_airport (depOf f) = true
    · by_cases hn : 0 < ntkOf f
      · rw [if_pos ⟨hc.1, hc.2, hn⟩, if_pos hc]
      · have h0 : ntkOf f = 0 := le_antisymm (not_lt.mp hn) (h f hf).1
        rw [if_neg (fun hfull => hn hfull.2.2), if_pos hc, h0]
    · rw [if_neg (fun hfull => hc ⟨hfull.1, hfull.2.1⟩), if_neg hc]
  have hld : ∀ f ∈ flights, nightLdContrib f =
      (if 0 < nightOf f ∧ is_towered_airport (arrOf f) = true then nldOf f else 0) := by
    intro f hf
    unfold nightLdContrib
    by_cases hc : 0 < nightOf f ∧ is_towered_airport (arrOf f) = true
    · by_cases hn : 0 < nldOf f
      · rw [if_pos ⟨hc.1, hc.2, hn⟩, if_pos hc]
      · have h0 : nldOf f = 0 := le_antisymm (not_lt.mp hn) (h f hf).2
        rw [if_neg (fun hfull => hn hfull.2.2), if_pos hc, h0]
    · rw [if_neg (fun hfull => hc ⟨hfull.1, hfull.2.1⟩), if_neg hc]
  constructor
  · show ((min (nightToweredLoop flights).1 10 : Int) : ℚ) = _
    rw [nightToweredLoop_fst, List.map_congr_left htk, min_comm]
  · show ((min (nightToweredLoop flights).2 10 : Int) : ℚ) = _
    rw [nightToweredLoop_snd, List.map_congr_left hld, min_comm]

/-- Witness for C9 at a concrete flight with night towered operations. -/
theorem night_towered_capped_at_ten_witness :
    (computeSnapshot 0 [wNightOpsFlight]).cpl_night_takeoffs_towered =
      ((min 10 (([wNightOpsFlight].map (fun f =>
        if 0 < nightOf f ∧ is_towered_airport (depOf f) = true then ntkOf f
        else 0)).sum) : Int) : ℚ) ∧
    (computeSnapshot 0 [wNightOpsFlight]).cpl_night_landings_towered =
      ((min 10 (([wNightOpsFlight].map (fun f =>
        if 0 < nightOf f ∧ is_towered_airport (arrOf f) = true then nldOf f
        else 0)).sum) : Int) : ℚ) :=
  night_towered_capped_at_ten 0 [wNightOpsFlight] (by
    intro f hf
    simp only [List.mem_singleton] at hf
    subst hf
    exact ⟨by decide, by decide⟩)

/-! ### Helper lemmas about the import loop -/

theorem stepTagged_cases (s : ImportState) (r : CsvRow) :
    (stepTagged s r).1.existing = s.existing ∧
    ((stepTagged s r).1.batch = s.batch ∨
      (stepTagged s r).1.batch = s.batch ++ [makeHash r]) := by
  simp only [stepTagged]
  split_ifs <;> try exact ⟨rfl, Or.inl rfl⟩
  cases safe_date r.Date
  · exact ⟨rfl, Or.inr rfl⟩
  · exact ⟨rfl, Or.inr rfl⟩

theorem presenceOk_date (r : CsvRow) (hp : presenceOk r = true) :
    truthy r.Date = true := by
  unfold presenceOk at hp
  simp only [Bool.and_eq_true] at hp
  exact hp.1

theorem presenceOk_time (r : CsvRow) (hp : presenceOk r = true) :
    (!truthy r.TotalTime && !truthy r.SimulatedFlight) = false := by
  unfold presenceOk at hp
  simp only [Bool.and_eq_true] at hp
  rw [← Bool.not_or, hp.2]
  rfl

/-- A row that passes the presence checks and whose hash is already known
(persisted or in-batch) is rejected as a duplicate: skipped is incremented,
a duplicate reason is reported, nothing is persisted. -/
theorem stepTagged_dup (s : ImportState) (r : CsvRow) (hp : presenceOk r = true)
    (hseen : makeHash r ∈ s.existing ∨ makeHash r ∈ s.batch) :
    stepTagged s r =
      ({ s with rowNum := s.rowNum + 1, skipped := s.skipped + 1,
                errors := s.errors ++
                  ["Row " ++ toString s.rowNum ++ ": Duplicate flight (already imported)"] },
       .duplicate) := by
  simp only [stepTagged, presenceOk_date r hp, presenceOk_time r hp, Bool.not_true,
    Bool.false_eq_true, if_false]
  rw [if_pos hseen]

/-- After a row passing the presence checks is processed, its hash is known to
the duplicate filter. -/
theorem stepRow_seen_self (s : ImportState) (r : CsvRow) (hp : presenceOk r = true) :
    makeHash r ∈ (stepRow s r).existing ∨ makeHash r ∈ (stepRow s r).batch := by
  by_cases hseen : makeHash r ∈ s.existing ∨ makeHash r ∈ s.batch
  · rw [stepRow, stepTagged_dup s r hp hseen]
    exact hseen
  · right
    simp only [stepRow, stepTagged, presenceOk_date r hp, presenceOk_time r hp,
      Bool.not_true, Bool.false_eq_true, if_false]
    rw [if_neg hseen]
    cases safe_date r.Date <;> simp

/-- One import step never forgets a known hash. -/
theorem stepRow_seen_mono (s : ImportState) (r : CsvRow) (x : String)
    (h : x ∈ s.existing ∨ x ∈ s.batch) :
    x ∈ (stepRow s r).existing ∨ x ∈ (stepRow s r).batch := by
  have hc := stepTagged_cases s r
  rcases h with h | h
  · left
    rw [show (stepRow s r).existing = s.existing from hc.1]
    exact h
  · right
    rcases hc.2 with hb | hb <;> rw [show (stepRow s r).batch = _ from hb] <;> simp [h]

/-- The whole import loop never forgets a known hash. -/
theorem runRows_seen_mono (rows : List CsvRow) :
    ∀ (s : ImportState) (x : String), (x ∈ s.existing ∨ x ∈ s.batch) →
      x ∈ (runRows s rows).existing ∨ x ∈ (runRows s rows).batch := by
  induction rows with
  | nil => intro s x h; exact h
  | cons r t ih =>
    intro s x h
    exact ih (stepRow s r) x (stepRow_seen_mono s r x h)

/-! ### Claim C6 — duplicate hash over exactly four fields, second row rejected -/

/-- C6: the import hash is a function of exactly `(Date, From, To,
TotalTime)` — two rows agreeing on those four raw fields hash identically
regardless of every other field — and when such a row appears anywhere after
another one that passed the presence checks, it is rejected as a duplicate:
its step leaves the persisted rows and imported count unchanged, increments
`skipped`, and appends the duplicate reason. -/
theorem duplicate_hash_determinism_and_rejection (r1 r2 : CsvRow)
    (pre mid : List CsvRow) (s : ImportState)
    (hd : r1.Date = r2.Date) (hf : r1.From = r2.From) (hto : r1.To = r2.To)
    (htt : r1.TotalTime = r2.TotalTime)
    (hp1 : presenceOk r1 = true) (hp2 : presenceOk r2 = true) :
    makeHash r1 = makeHash r2 ∧
    stepTagged (runRows (stepRow (runRows s pre) r1) mid) r2 =
      ({ runRows (stepRow (runRows s pre) r1) mid with
          rowNum := (runRows (stepRow (runRows s pre) r1) mid).rowNum + 1,
          skipped := (runRows (stepRow (runRows s pre) r1) mid).skipped + 1,
          errors := (runRows (stepRow (runRows s pre) r1) mid).errors ++
            ["Row " ++ toString (runRows (stepRow (runRows s pre) r1) mid).rowNum ++
              ": Duplicate flight (already imported)"] },
       .duplicate) := by
  have hh : makeHash r1 = makeHash r2 := by
    simp [makeHash, hd, hf, hto, htt]
  refine ⟨hh, ?_⟩
  have h1 := stepRow_seen_self (runRows s pre) r1 hp1
  have h2 := runRows_seen_mono mid _ _ h1
  rw [hh] at h2
  exact stepTagged_dup _ r2 hp2 h2

/-- Witness for C6: two concrete rows equal on the four hash fields and
different elsewhere; the second is rejected as a duplicate. -/
theorem duplicate_hash_determinism_and_rejection_witness :
    makeHash wRowA = makeHash wRowB ∧
    stepTagged (runRows (stepRow (runRows {} []) wRowA) []) wRowB =
      ({ runRows (stepRow (runRows {} []) wRowA) [] with
          rowNum := (runRows (stepRow (runRows {} []) wRowA) []).rowNum + 1,
          skipped := (runRows (stepRow (runRows {} []) wRowA) []).skipped + 1,
          errors := (runRows (stepRow (runRows {} []) wRowA) []).errors ++
            ["Row " ++ toString (runRows (stepRow (runRows {} []) wRowA) []).rowNum ++
              ": Duplicate flight (already imported)"] },
       .duplicate) :=
  duplicate_hash_determinism_and_rejection wRowA wRowB [] [] {}
    rfl rfl rfl rfl (by decide) (by decide)

/-! ### Claim C10 — hash built from raw strings -/

/-- C10: the duplicate hash is computed over the raw CSV strings — an absent
`From` (or `To`) contributes the literal text `None`, and `TotalTime` strings
`"1.5"` and `"1.50"` (the same number in different formats) give different
hashes, so the second such row is not rejected as an in-batch duplicate. -/
theorem import_hash_raw_strings (r1 r2 : CsvRow) (s : ImportState)
    (hd : r1.Date = r2.Date) (hf : r1.From = r2.From) (hto : r1.To = r2.To)
    (h1 : r1.TotalTime = some "1.5") (h2 : r2.TotalTime = some "1.50")
    (hb : makeHash r2 ∉ s.batch) (he : makeHash r2 ∉ s.existing) :
    (∀ r : CsvRow, r.From = none →
      makeHash r = fmtField r.Date ++ "_" ++ "None" ++ "_" ++ fmtField r.To ++ "_" ++
        fmtField r.TotalTime) ∧
    makeHash r1 ≠ makeHash r2 ∧
    (stepTagged (stepRow s r1) r2).2 ≠ RowOutcome.duplicate := by
  have hne : makeHash r1 ≠ makeHash r2 := by
    intro heq
    have hlen := congrArg (fun t : String => t.data.length) heq
    simp only [makeHash, String.data_append, List.length_append, hd, hf, hto, h1, h2,
      fmtField] at hlen
    simp at hlen
  refine ⟨?_, hne, ?_⟩
  · intro r hr
    simp [makeHash, hr, fmtField]
  · have hc := stepTagged_cases s r1
    have hbb : makeHash r2 ∉ (stepRow s r1).batch := by
      rcases hc.2 with hcb | hcb
      · rw [show (stepRow s r1).batch = _ from hcb]
        exact hb
      · rw [show (stepRow s r1).batch = _ from hcb]
        intro hx
        rcases List.mem_append.mp hx with hx | hx
        · exact hb hx
        · rw [List.mem_singleton] at hx
          exact hne hx.symm
    have hbe : makeHash r2 ∉ (stepRow s r1).existing := by
      rw [show (stepRow s r1).existing = s.existing from hc.1]
      exact he
    simp only [stepTagged]
    split_ifs with c1 c2 c3
    · simp
    · simp
    · exact absurd c3 (by
        rintro (h | h)
        · exact hbe h
        · exact hbb h)
    · cases safe_date r2.Date <;> simp

/-- Witness for C10: rows with `TotalTime` `"1.5"` versus `"1.50"`. -/
theorem import_hash_raw_strings_witness :
    (∀ r : CsvRow, r.From = none →
      makeHash r = fmtField r.Date ++ "_" ++ "None" ++ "_" ++ fmtField r.To ++ "_" ++
        fmtField r.TotalTime) ∧
    makeHash wRowA ≠ makeHash wRowC ∧
    (stepTagged (stepRow {} wRowA) wRowC).2 ≠ RowOutcome.duplicate :=
  import_hash_raw_strings wRowA wRowC {} rfl rfl rfl rfl rfl
    (by decide) (by decide)

/-! ### Helper lemmas: nonnegativity of per-flight contributions -/

theorem map_sum_nonneg {M : Type _} [OrderedAddCommMonoid M] (l : List Flight)
    (c : Flight → M) (h : ∀ f ∈ l, 0 ≤ c f) : 0 ≤ (l.map c).sum :=
  List.sum_nonneg (by
    intro x hx
    rcases List.mem_map.mp hx with ⟨f, hf, rfl⟩
    exact h f hf)

theorem complexDualContrib_nonneg (f : Flight) : 0 ≤ complexDualContrib f := by
  unfold complexDualContrib
  split_ifs with h
  · exact le_min h.1.le h.2.le
  · exact le_rfl

theorem picXcContrib_nonneg (f : Flight) : 0 ≤ picXcContrib f := by
  unfold picXcContrib
  split_ifs with h
  · exact le_min h.1.le h.2.le
  · exact le_rfl

theorem dualXcContrib_nonneg (f : Flight) : 0 ≤ dualXcContrib f := by
  unfold dualXcContrib
  split_ifs with h
  · exact le_min h.1.le h.2.le
  · exact le_rfl

theorem instrDualAirplaneContrib_nonneg (f : Flight) :
    0 ≤ instrDualAirplaneContrib f := by
  unfold instrDualAirplaneContrib
  split_ifs with h
  · exact le_min h.1.le h.2.2.1.le
  · exact le_rfl

theorem instrDualSimContrib_nonneg (f : Flight) : 0 ≤ instrDualSimContrib f := by
  unfold instrDualSimContrib
  split_ifs with h
  · exact le_min h.1.le h.2.2.le
  · exact le_rfl

theorem recentInstrContrib_nonneg (today : Int) (f : Flight)
    (hai : 0 ≤ aiOf f) (hsi : 0 ≤ siOf f) : 0 ≤ recentInstrContrib today f := by
  unfold recentInstrContrib
  split_ifs with h
  · exact le_min h.1.le (add_nonneg hai hsi)
  · exact le_rfl

theorem checkridePrepContrib_nonneg (today : Int) (f : Flight) :
    0 ≤ checkridePrepContrib today f := by
  unfold checkridePrepContrib
  split_ifs with h
  · exact h.1.le
  · exact le_rfl

theorem nightVfrContrib_nonneg (f : Flight) : 0 ≤ nightVfrContrib f := by
  unfold nightVfrContrib
  split_ifs with h
  · exact h.1.le
  · exact le_rfl

theorem toweredTkContrib_nonneg (f : Flight) : 0 ≤ toweredTkContrib f := by
  unfold toweredTkContrib
  split_ifs with h
  · exact h.2.2.le
  · exact le_rfl

theorem toweredLdContrib_nonneg (f : Flight) : 0 ≤ toweredLdContrib f := by
  unfold toweredLdContrib
  split_ifs with h
  · exact h.2.2.le
  · exact le_rfl

theorem nightTkContrib_nonneg (f : Flight) : 0 ≤ nightTkContrib f := by
  unfold nightTkContrib
  split_ifs with h
  · exact h.2.2.le
  · exact le_rfl

theorem nightLdContrib_nonneg (f : Flight) : 0 ≤ nightLdContrib f := by
  unfold nightLdContrib
  split_ifs with h
  · exact h.2.2.le
  · exact le_rfl

/-! ### Claim C4 — no clamping at the parser boundary -/

/-- C4 counterexample: `_safe_float` does not clamp — the CSV cell `"-1.5"`
parses to the negative value −3/2 — and a stored flight carrying that value
produces a snapshot whose `total` metric is negative. -/
theorem unclamped_parse_counterexample :
    safe_float (some "-1.5") = some (-(3/2)) ∧
    (computeSnapshot 0 [cexNegFlight]).total < 0 := by
  have hval : safe_float (some "-1.5") = some (-(3/2)) := by
    have hdata : ("-1.5" : String).data = ['-', '1', '.', '5'] := rfl
    have hsplit : splitOnChar '.' ['1', '.', '5'] = [['1'], ['5']] := rfl
    have hbeq : (("-1.5" : String) == "") = false := by decide
    have hc : ((!List.isEmpty ['1'] || !List.isEmpty ['5']) &&
        List.all ['1'] Char.isDigit && List.all ['5'] Char.isDigit) = true := by decide
    have h1 : digitsVal ['1'] = 1 := rfl
    have h5 : digitsVal ['5'] = 5 := rfl
    simp only [safe_float, hbeq, Bool.false_eq_true, if_false, decLit?, hdata, hsplit,
      hc, if_true, h1, h5]
    norm_num
  refine ⟨hval, ?_⟩
  have ht : totalOf cexNegFlight = -(3/2) := by
    simp [totalOf, cexNegFlight, parse_decimal, hval]
  show (mainLoop 0 [cexNegFlight] {}).total < 0
  rw [mainLoop_total]
  simp [ht]

/-- C4 amended: the parsers do not clamp (see the counterexample), but for a
flight history whose stored duration fields are all nonnegative, every
emitted metric of the snapshot is nonnegative. -/
theorem snapshot_metrics_nonneg (today : Int) (flights : List Flight)
    (h : ∀ f ∈ flights, DurNonneg f) :
    SnapshotNonneg (computeSnapshot today flights) := by
  have h1 : ∀ f ∈ flights, 0 ≤ totalOf f := fun f hf => (h f hf).1
  have h2 : ∀ f ∈ flights, 0 ≤ picOf f := fun f hf => (h f hf).2.1
  have h3 : ∀ f ∈ flights, 0 ≤ ccOf f := fun f hf => (h f hf).2.2.1
  have h4 : ∀ f ∈ flights, 0 ≤ nightOf f := fun f hf => (h f hf).2.2.2.1
  have h5 : ∀ f ∈ flights, 0 ≤ soloOf f := fun f hf => (h f hf).2.2.2.2.1
  have h6 : ∀ f ∈ flights, 0 ≤ drOf f := fun f hf => (h f hf).2.2.2.2.2.1
  have h7 : ∀ f ∈ flights, 0 ≤ dgOf f := fun f hf => (h f hf).2.2.2.2.2.2.1
  have h8 : ∀ f ∈ flights, 0 ≤ sfOf f := fun f hf => (h f hf).2.2.2.2.2.2.2.1
  have h9 : ∀ f ∈ flights, 0 ≤ aiOf f := fun f hf => (h f hf).2.2.2.2.2.2.2.2.1
  have h10 : ∀ f ∈ flights, 0 ≤ siOf f := fun f hf => (h f hf).2.2.2.2.2.2.2.2.2.1
  have h11 : ∀ f ∈ flights, 0 ≤ cxOf f := fun f hf => (h f hf).2.2.2.2.2.2.2.2.2.2
  have hida : (0:ℚ) ≤ (mainLoop today flights {}).instrument_dual_airplane := by
    rw [mainLoop_ida]
    simpa using map_sum_nonneg flights _ (fun f _ => instrDualAirplaneContrib_nonneg f)
  have hids : (0:ℚ) ≤ (mainLoop today flights {}).instrument_dual_simulator := by
    rw [mainLoop_ids]
    simpa using map_sum_nonneg flights _ (fun f _ => instrDualSimContrib_nonneg f)
  have hcd : (0:ℚ) ≤ (mainLoop today flights {}).complex_dual := by
    rw [mainLoop_complex_dual]
    simpa using map_sum_nonneg flights _ (fun f _ => complexDualContrib_nonneg f)
  have hsolo : (0:ℚ) ≤ (mainLoop today flights {}).solo := by
    rw [mainLoop_solo]
    simpa using map_sum_nonneg flights _ h5
  refine ⟨?_, ?_, ?_, ?_, ?_, ?_, ?_, ?_, ?_, ?_, ?_, ?_, ?_, ?_, ?_, ?_, ?_, ?_,
    ?_, ?_, ?_, ?_, ?_, ?_, ?_, ?_, ?_, ?_, ?_, ?_, ?_, ?_⟩
  · show (0:ℚ) ≤ (mainLoop today flights {}).total
    rw [mainLoop_total]
    simpa using map_sum_nonneg flights _ h1
  · show (0:ℚ) ≤ (mainLoop today flights {}).pic
    rw [mainLoop_pic]
    simpa using map_sum_nonneg flights _ h2
  · show (0:ℚ) ≤ (mainLoop today flights {}).cross_country
    rw [mainLoop_cross_country]
    simpa using map_sum_nonneg flights _ h3
  · show (0:ℚ) ≤ (mainLoop today flights {}).night
    rw [mainLoop_night]
    simpa using map_sum_nonneg flights _ h4
  · exact hsolo
  · show (0:ℚ) ≤ (mainLoop today flights {}).dual_received
    rw [mainLoop_dual_received]
    simpa using map_sum_nonneg flights _ h6
  · show (0:ℚ) ≤ (mainLoop today flights {}).dual_given
    rw [mainLoop_dual_given]
    simpa using map_sum_nonneg flights _ h7
  · show (0:ℚ) ≤ (mainLoop today flights {}).simulator_time
    rw [mainLoop_simulator_time]
    simpa using map_sum_nonneg flights _ h8
  · show (0:ℚ) ≤ (mainLoop today flights {}).actual_instrument
    rw [mainLoop_actual_instrument]
    simpa using map_sum_nonneg flights _ h9
  · show (0:ℚ) ≤ (mainLoop today flights {}).simulated_instrument
    rw [mainLoop_simulated_instrument]
    simpa using map_sum_nonneg flights _ h10
  · show (0:ℚ) ≤ (mainLoop today flights {}).complex
    rw [mainLoop_complex]
    simpa using map_sum_nonneg flights _ h11
  · exact hcd
  · show (0:ℚ) ≤ (mainLoop today flights {}).pic_xc
    rw [mainLoop_pic_xc]
    simpa using map_sum_nonneg flights _ (fun f _ => picXcContrib_nonneg f)
  · show (0:ℚ) ≤ (mainLoop today flights {}).dual_xc
    rw [mainLoop_dual_xc]
    simpa using map_sum_nonneg flights _ (fun f _ => dualXcContrib_nonneg f)
  · exact hida
  · exact hids
  · show (0:ℚ) ≤ (mainLoop today flights {}).instrument_total
    rw [mainLoop_instrument_total]
    simpa using map_sum_nonneg flights _
      (fun f hf => add_nonneg (h9 f hf) (h10 f hf))
  · show (0:ℚ) ≤ ((mainLoop today flights {}).long_xc : ℚ)
    exact Nat.cast_nonneg _
  · show (0:ℚ) ≤ ((min (mainLoop today flights {}).towered 3 : Int) : ℚ)
    have htow : (0:ℤ) ≤ (mainLoop today flights {}).towered := by
      rw [mainLoop_towered]
      simpa using map_sum_nonneg flights _
        (fun f _ => add_nonneg (toweredTkContrib_nonneg f) (toweredLdContrib_nonneg f))
    exact_mod_cast le_min htow (by norm_num)
  · show (0:ℚ) ≤ (mainLoop today flights {}).recent_instrument
    rw [mainLoop_recent_instrument]
    simpa using map_sum_nonneg flights _
      (fun f hf => recentInstrContrib_nonneg today f (h9 f hf) (h10 f hf))
  · show (0:ℚ) ≤ (qualLoop flights {}).ir
    rw [((qualLoop_ir flights {}).2 rfl).1]
    split <;> norm_num
  · show (0:ℚ) ≤ (mainLoop today flights {}).instrument_dual_airplane +
      min (mainLoop today flights {}).instrument_dual_simulator 5
    exact add_nonneg hida (le_min hids (by norm_num))
  · exact hida
  · exact hcd
  · show (0:ℚ) ≤ (qualLoop flights {}).day
    rw [((qualLoop_day flights {}).2 rfl).1]
    split <;> norm_num
  · show (0:ℚ) ≤ (qualLoop flights {}).nightQ
    rw [((qualLoop_nightQ flights {}).2 rfl).1]
    split <;> norm_num
  · show (0:ℚ) ≤ (mainLoop today flights {}).checkride_prep
    rw [mainLoop_checkride_prep]
    simpa using map_sum_nonneg flights _ (fun f _ => checkridePrepContrib_nonneg today f)
  · exact hsolo
  · show (0:ℚ) ≤ (qualLoop flights {}).xc300
    rw [((qualLoop_xc300 flights {}).2 rfl).1]
    split <;> norm_num
  · show (0:ℚ) ≤ nightVfrLoop flights
    rw [nightVfrLoop_sum]
    exact map_sum_nonneg flights _ (fun f _ => nightVfrContrib_nonneg f)
  · show (0:ℚ) ≤ ((min (nightToweredLoop flights).1 10 : Int) : ℚ)
    have : (0:ℤ) ≤ (nightToweredLoop flights).1 := by
      rw [nightToweredLoop_fst]
      exact map_sum_nonneg flights _ (fun f _ => nightTkContrib_nonneg f)
    exact_mod_cast le_min this (by norm_num)
  · show (0:ℚ) ≤ ((min (nightToweredLoop flights).2 10 : Int) : ℚ)
    have : (0:ℤ) ≤ (nightToweredLoop flights).2 := by
      rw [nightToweredLoop_snd]
      exact map_sum_nonneg flights _ (fun f _ => nightLdContrib_nonneg f)
    exact_mod_cast le_min this (by norm_num)

/-- Witness for C4 at a concrete nonnegative flight. -/
theorem snapshot_metrics_nonneg_witness :
    SnapshotNonneg (computeSnapshot 0 [wPicFlight]) :=
  snapshot_metrics_nonneg 0 [wPicFlight] (by
    intro f hf
    simp only [List.mem_singleton] at hf
    subst hf
    unfold DurNonneg
    refine ⟨?_, ?_, ?_, ?_, ?_, ?_, ?_, ?_, ?_, ?_, ?_⟩ <;>
      norm_num [totalOf, picOf, ccOf, nightOf, soloOf, drOf, dgOf, sfOf, aiOf, siOf,
        cxOf, wPicFlight, parse_decimal])

/-! ### Helper lemmas about the aircraft extractor -/

theorem dedupFirst_aux_mem (l : List String) :
    ∀ (acc : List String) (x : String),
      x ∈ l.foldl (fun acc t => if t ∈ acc then acc else acc ++ [t]) acc ↔
        x ∈ acc ∨ x ∈ l := by
  induction l with
  | nil => intro acc x; simp
  | cons t ts ih =>
    intro acc x
    rw [List.foldl_cons]
    by_cases h : t ∈ acc
    · rw [if_pos h, ih]
      constructor
      · rintro (hx | hx)
        · exact Or.inl hx
        · exact Or.inr (List.mem_cons_of_mem _ hx)
      · rintro (hx | hx)
        · exact Or.inl hx
        · rcases List.mem_cons.mp hx with rfl | hx
          · exact Or.inl h
          · exact Or.inr hx
    · rw [if_neg h, ih]
      simp only [List.mem_append, List.mem_singleton, List.mem_cons]
      tauto

theorem dedupFirst_mem (l : List String) (x : String) :
    x ∈ dedupFirst l ↔ x ∈ l := by
  unfold dedupFirst
  rw [dedupFirst_aux_mem]
  simp

theorem dedupFirst_aux_nodup (l : List String) :
    ∀ acc : List String, acc.Nodup →
      (l.foldl (fun acc t => if t ∈ acc then acc else acc ++ [t]) acc).Nodup := by
  induction l with
  | nil => intro acc h; exact h
  | cons t ts ih =>
    intro acc h
    rw [List.foldl_cons]
    by_cases ht : t ∈ acc
    · rw [if_pos ht]
      exact ih acc h
    · rw [if_neg ht]
      refine ih _ ?_
      rw [List.nodup_append]
      refine ⟨h, List.nodup_singleton t, ?_⟩
      intro a ha hb
      rw [List.mem_singleton] at hb
      subst hb
      exact ht ha

theorem dedupFirst_nodup (l : List String) : (dedupFirst l).Nodup :=
  dedupFirst_aux_nodup l [] List.nodup_nil

theorem lookup_faa_calls (enable : Bool) (faaDb : String → Option FaaRec)
    (t : String) :
    (lookup_faa_aircraft enable faaDb t).2 = [] ∨
    (lookup_faa_aircraft enable faaDb t).2 = [t] := by
  unfold lookup_faa_aircraft
  split_ifs
  · exact Or.inl rfl
  · cases faaDb t
    · exact Or.inl rfl
    · exact Or.inr rfl

theorem create_user_aircraft_tail (t : String) (d : AircraftData) (src : String) :
    (create_user_aircraft t d src).tail_number = t := rfl

theorem processTail_filter_ne (flights : List CsvRow) (enable : Bool)
    (acTable : List (String × AcRow)) (existing : List String)
    (faaDb : String → Option FaaRec) (res : ExtractResult) (t T : String)
    (ht : t ≠ T) :
    (processTail flights enable acTable existing faaDb res t).created.filter
        (fun a => a.tail_number == T) =
      res.created.filter (fun a => a.tail_number == T) := by
  have hbe : (t == T) = false := by simp [ht]
  simp only [processTail]
  split_ifs with hex hus
  · rfl
  · simp [List.filter_append, create_user_aircraft, hbe]
  · simp [List.filter_append, create_user_aircraft, hbe]

theorem processTail_fold_filter_ne (flights : List CsvRow) (enable : Bool)
    (acTable : List (String × AcRow)) (existing : List String)
    (faaDb : String → Option FaaRec) (T : String) :
    ∀ (reals : List String) (res : ExtractResult), (∀ t ∈ reals, t ≠ T) →
      (reals.foldl (processTail flights enable acTable existing faaDb) res).created.filter
          (fun a => a.tail_number == T) =
        res.created.filter (fun a => a.tail_number == T) := by
  intro reals
  induction reals with
  | nil => intro res _; rfl
  | cons t ts ih =>
    intro res h
    rw [List.foldl_cons, ih _ (fun u hu => h u (List.mem_cons_of_mem _ hu)),
      processTail_filter_ne flights enable acTable existing faaDb res t T
        (h t (List.mem_cons_self t ts))]

theorem processTail_calls_sub (flights : List CsvRow) (enable : Bool)
    (acTable : List (String × AcRow)) (existing : List String)
    (faaDb : String → Option FaaRec) (res : ExtractResult) (t x : String)
    (hx : x ∈ (processTail flights enable acTable existing faaDb res t).calls) :
    x ∈ res.calls ∨ x = t := by
  simp only [processTail] at hx
  split_ifs at hx with hex hus
  · exact Or.inl hx
  · simp only [List.mem_append] at hx
    rcases hx with hx | hx
    · exact Or.inl hx
    · rcases lookup_faa_calls enable faaDb t with hl | hl <;> rw [hl] at hx
      · exact absurd hx (List.not_mem_nil x)
      · rw [List.mem_singleton] at hx
        exact Or.inr hx
  · simp only [List.append_nil] at hx
    exact Or.inl hx

theorem processTail_fold_calls_sub (flights : List CsvRow) (enable : Bool)
    (acTable : List (String × AcRow)) (existing : List String)
    (faaDb : String → Option FaaRec) :
    ∀ (reals : List String) (res : ExtractResult) (x : String),
      x ∈ (reals.foldl (processTail flights enable acTable existing faaDb) res).calls →
        x ∈ res.calls ∨ x ∈ reals := by
  intro reals
  induction reals with
  | nil => intro res x hx; exact Or.inl hx
  | cons t ts ih =>
    intro res x hx
    rcases ih _ x hx with hx | hx
    · rcases processTail_calls_sub flights enable acTable existing faaDb res t x hx with
        hx | hx
      · exact Or.inl hx
      · exact Or.inr (hx ▸ List.mem_cons_self t ts)
    · exact Or.inr (List.mem_cons_of_mem _ hx)

theorem processSim_calls (acTable : List (String × AcRow)) (existing : List String)
    (res : ExtractResult) (t : String) :
    (processSim acTable existing res t).calls = res.calls := by
  simp only [processSim]
  split_ifs <;> rfl

theorem processSim_fold_calls (acTable : List (String × AcRow))
    (existing : List String) :
    ∀ (sims : List String) (res : ExtractResult),
      (sims.foldl (processSim acTable existing) res).calls = res.calls := by
  intro sims
  induction sims with
  | nil => intro res; rfl
  | cons t ts ih =>
    intro res
    rw [List.foldl_cons, ih, processSim_calls]

theorem processSim_filter_ne (acTable : List (String × AcRow))
    (existing : List String) (res : ExtractResult) (t T : String) (ht : t ≠ T) :
    (processSim acTable existing res t).created.filter (fun a => a.tail_number == T) =
      res.created.filter (fun a => a.tail_number == T) := by
  have hbe : (t == T) = false := by simp [ht]
  simp only [processSim]
  split_ifs with hex
  · rfl
  · simp [List.filter_append, create_user_aircraft, hbe]

theorem processSim_fold_filter_ne (acTable : List (String × AcRow))
    (existing : List String) (T : String) :
    ∀ (sims : List String) (res : ExtractResult), (∀ t ∈ sims, t ≠ T) →
      (sims.foldl (processSim acTable existing) res).created.filter
          (fun a => a.tail_number == T) =
        res.created.filter (fun a => a.tail_number == T) := by
  intro sims
  induction sims with
  | nil => intro res _; rfl
  | cons t ts ih =>
    intro res h
    rw [List.foldl_cons, ih _ (fun u hu => h u (List.mem_cons_of_mem _ hu)),
      processSim_filter_ne acTable existing res t T (h t (List.mem_cons_self t ts))]

theorem processSim_at_T (acTable : List (String × AcRow)) (existing : List String)
    (res : ExtractResult) (T : String)
    (hex : existsCI existing T = false) (htab : lookupTable acTable T = none) :
    processSim acTable existing res T =
      { res with created := res.created ++
          [create_user_aircraft T
            { model := some "Simulator", type_code := some "SIM" } "manual"] } := by
  simp only [processSim, hex, htab, Bool.false_eq_true, if_false]

theorem processSim_fold_at_T (acTable : List (String × AcRow))
    (existing : List String) (T : String)
    (hex : existsCI existing T = false) (htab : lookupTable acTable T = none) :
    ∀ (sims : List String) (res : ExtractResult), T ∈ sims → sims.Nodup →
      (sims.foldl (processSim acTable existing) res).created.filter
          (fun a => a.tail_number == T) =
        res.created.filter (fun a => a.tail_number == T) ++
          [create_user_aircraft T
            { model := some "Simulator", type_code := some "SIM" } "manual"] := by
  intro sims
  induction sims with
  | nil => intro res hT _; exact absurd hT (List.not_mem_nil T)
  | cons u us ih =>
    intro res hT hnd
    by_cases hu : u = T
    · subst hu
      have hTus : u ∉ us := (List.nodup_cons.mp hnd).1
      rw [List.foldl_cons, processSim_at_T acTable existing res u hex htab,
        processSim_fold_filter_ne acTable existing u us _
          (fun t htm => fun he => hTus (he ▸ htm))]
      simp [List.filter_append, create_user_aircraft]
    · have hTus : T ∈ us := by
        rcases List.mem_cons.mp hT with h | h
        · exact absurd h.symm hu
        · exact h
      rw [List.foldl_cons, ih _ hTus (List.nodup_cons.mp hnd).2,
        processSim_filter_ne acTable existing res u T hu]

/-- Unfolding of `extract_and_import_aircraft` into its two phases. -/
theorem extract_eq (flights : List CsvRow) (enable : Bool)
    (acTable : List (String × AcRow)) (existing : List String)
    (faaDb : String → Option FaaRec) :
    extract_and_import_aircraft flights enable acTable existing faaDb =
      (dedupFirst (((flights.filterMap CsvRow.AircraftID).filter
          (fun t => !(t == ""))).filter (fun t => is_simulator t))).foldl
        (processSim acTable existing)
        ((dedupFirst (((flights.filterMap CsvRow.AircraftID).filter
            (fun t => !(t == ""))).filter (fun t => !is_simulator t))).foldl
          (processTail flights enable acTable existing faaDb) {}) := rfl

/-! ### Claim C7 — simulator tails never classified, created as manual -/

/-- C7: a tail number with a simulator-device marker (such as `FSX172`)
appearing in the flight rows is never passed to the gear-type/complexity
classifier, and — when not already stored and absent from the Aircraft
Table — its aircraft record is created with `is_simulator = true`,
`data_source = "manual"` and model defaulting to `"Simulator"`. -/
theorem simulator_tail_manual_creation (flights : List CsvRow) (enable : Bool)
    (acTable : List (String × AcRow)) (existing : List String)
    (faaDb : String → Option FaaRec) (T : String)
    (hsim : is_simulator T = true)
    (hmem : some T ∈ flights.map CsvRow.AircraftID)
    (hex : existsCI existing T = false)
    (htab : lookupTable acTable T = none) :
    T ∉ (extract_and_import_aircraft flights enable acTable existing faaDb).calls ∧
    ((extract_and_import_aircraft flights enable acTable existing faaDb).created.filter
        (fun a => a.tail_number == T)).map
        (fun a => (a.is_simulator, a.data_source, a.model)) =
      [(true, "manual", some "Simulator")] := by
  have hTne : T ≠ "" := by
    intro he
    rw [he] at hsim
    simp [is_simulator] at hsim
  have hTtails : T ∈ (flights.filterMap CsvRow.AircraftID).filter
      (fun t => !(t == "")) := by
    rcases List.mem_map.mp hmem with ⟨r, hr, hid⟩
    refine List.mem_filter.mpr ⟨List.mem_filterMap.mpr ⟨r, hr, hid⟩, ?_⟩
    simp [hTne]
  have hreals : ∀ t ∈ dedupFirst (((flights.filterMap CsvRow.AircraftID).filter
      (fun t => !(t == ""))).filter (fun t => !is_simulator t)), t ≠ T := by
    intro t htm he
    subst he
    have := (List.mem_filter.mp ((dedupFirst_mem _ _).mp htm)).2
    rw [hsim] at this
    exact absurd this (by decide)
  constructor
  · intro hTc
    rw [extract_eq, processSim_fold_calls] at hTc
    rcases processTail_fold_calls_sub flights enable acTable existing faaDb _ _ T hTc with
      hx | hx
    · exact absurd hx (List.not_mem_nil T)
    · exact hreals T hx rfl
  · rw [extract_eq,
      processSim_fold_at_T acTable existing T hex htab _ _
        ((dedupFirst_mem _ _).mpr (List.mem_filter.mpr ⟨hTtails, hsim⟩))
        (dedupFirst_nodup _),
      processTail_fold_filter_ne flights enable acTable existing faaDb T _ _ hreals]
    simp [create_user_aircraft, hsim]

/-- Witness for C7: the simulator tail `FSX172`. -/
theorem simulator_tail_manual_creation_witness :
    "FSX172" ∉ (extract_and_import_aircraft [wFsxRow] true [] []
      (fun _ => none)).calls ∧
    ((extract_and_import_aircraft [wFsxRow] true [] [] (fun _ => none)).created.filter
        (fun a => a.tail_number == "FSX172")).map
        (fun a => (a.is_simulator, a.data_source, a.model)) =
      [(true, "manual", some "Simulator")] :=
  simulator_tail_manual_creation [wFsxRow] true [] [] (fun _ => none) "FSX172"
    (by decide) (by decide) rfl rfl

end TrueHour
